import Mathlib

/-!
# cpp2v type printer (`src/src/PrintType.cpp`)

A shallow embedding of the type-lowering visitor of cpp2v.  The C++ code walks a
clang type and streams text into a `CoqPrinter`; here the walk is a function from
the printer state on entry to an `Outcome` holding the printer state at the point
where control leaves the call (normal return, `logging::die()`, or a failed `assert`)
or where the call stops making progress (a recursion that re-enters itself on the same
node, or the dereference of a null pointer).
-/

namespace BRiCk

/-! ## The term builder -/

/-- One item received by the output formatter through `operator<<`. -/
inductive Tok where
  | lparen
  | rparen
  | nbsp
  | line
  | text (s : String)
  | num (n : Nat)
  deriving DecidableEq, Repr

/-- Modelled from the spec: the `fmt::Formatter` behind `CoqPrinter::output()` is not
among the sources.  The spec describes it as an append-only sink that tracks the
nesting depth; `out` is everything received so far, oldest first, and `depth` the
number of parentheses opened and not yet closed (an integer, so that an unmatched
closing parenthesis is visible as a negative depth instead of being clamped). -/
structure Formatter where
  out : List Tok
  depth : Int
  deriving DecidableEq, Repr

namespace Formatter

/-- A formatter that has received nothing. -/
def empty : Formatter := ⟨[], 0⟩

/-- Modelled from the spec: `print.output() << s` for a string `s`; appends the text and
leaves the depth alone. -/
def text (print : Formatter) (s : String) : Formatter :=
  ⟨print.out ++ [Tok.text s], print.depth⟩

/-- Modelled from the spec: `print.output() << n` for an unsigned integer `n`, a decimal
integer literal of the output format. -/
def num (print : Formatter) (n : Nat) : Formatter :=
  ⟨print.out ++ [Tok.num n], print.depth⟩

/-- Modelled from the spec: `print.output() << fmt::nbsp`. -/
def nbsp (print : Formatter) : Formatter :=
  ⟨print.out ++ [Tok.nbsp], print.depth⟩

/-- Modelled from the spec: `print.output() << fmt::line`. -/
def line (print : Formatter) : Formatter :=
  ⟨print.out ++ [Tok.line], print.depth⟩

/-- Modelled from the spec: `print.output() << fmt::lparen` opens one nesting level. -/
def lparen (print : Formatter) : Formatter :=
  ⟨print.out ++ [Tok.lparen], print.depth + 1⟩

/-- Modelled from the spec: `print.output() << fmt::rparen` closes one nesting level. -/
def rparen (print : Formatter) : Formatter :=
  ⟨print.out ++ [Tok.rparen], print.depth - 1⟩

/-- Modelled from the spec: `CoqPrinter::ctor(name, line = true)` starts a constructor
application: an optional line break, an opening parenthesis, the constructor name and
a separating space. -/
def ctor (print : Formatter) (name : String) (line : Bool) : Formatter :=
  (((if line then print.line else print).lparen).text name).nbsp

/-- Modelled from the spec: `CoqPrinter::end_ctor()` closes the constructor
application opened by `ctor`. -/
def end_ctor (print : Formatter) : Formatter :=
  print.rparen

/-- Modelled from the spec: `CoqPrinter::begin_list()` opens an ordered list. -/
def begin_list (print : Formatter) : Formatter :=
  print.lparen

/-- Modelled from the spec: `CoqPrinter::cons()` follows each list element. -/
def cons (print : Formatter) : Formatter :=
  print.text "::"

/-- Modelled from the spec: `CoqPrinter::end_list()` writes the explicit list
terminator and closes the list. -/
def end_list (print : Formatter) : Formatter :=
  (print.text "nil").rparen

end Formatter

/-- How control leaves a printing call, with the formatter state at that moment. -/
inductive Outcome where
  /-- Normal return. -/
  | ok (print : Formatter)
  /-- The call reached `logging::die()` after a `fatal()` message. -/
  | fatal (print : Formatter)
  /-- A depth `assert` of `ClangPrinter` did not hold. -/
  | assertFailed (print : Formatter)
  /-- The call re-entered itself on the same type node with the same formatter: the
  recursion has no end and the call never returns. -/
  | diverges (print : Formatter)
  /-- The call dereferenced a null pointer. -/
  | nullDeref (print : Formatter)
  deriving DecidableEq, Repr

namespace Outcome

/-- Sequencing of statements: the continuation runs only after a normal return. -/
def bind : Outcome → (Formatter → Outcome) → Outcome
  | ok print, k => k print
  | fatal print, _ => fatal print
  | assertFailed print, _ => assertFailed print
  | diverges print, _ => diverges print
  | nullDeref print, _ => nullDeref print

/-- The formatter state carried by an outcome. -/
def state : Outcome → Formatter
  | ok print => print
  | fatal print => print
  | assertFailed print => print
  | diverges print => print
  | nullDeref print => print

/-- Whether the outcome is a normal return. -/
def isOk : Outcome → Bool
  | ok _ => true
  | _ => false

/-- Whether the outcome is the fatal abort. -/
def isFatal : Outcome → Bool
  | fatal _ => true
  | _ => false

end Outcome

/-- The `depth`/`assert(depth == ...)` frame of `ClangPrinter::printType` and
`ClangPrinter::printQualType` (PrintType.cpp 360-372) around a body: the body runs,
and on normal return the depth is compared with the depth on entry.  A body that does
not return never reaches the assertion. -/
def depthChecked (body : Formatter → Outcome) (print : Formatter) : Outcome :=
  match body print with
  | Outcome.ok after =>
    if print.depth = after.depth then Outcome.ok after else Outcome.assertFailed after
  | stopped => stopped

/-! ## The clang types read by the printer -/

/-- A representative part of `clang::BuiltinType::Kind`, in the order of clang's
`BuiltinTypes.def`: the kinds tested by name in `VisitBuiltinType`, the integer,
character and floating kinds, one fixed-point kind, placeholder kinds, and two
sizeless (SVE) kinds. -/
inductive BuiltinKind where
  | Void | Bool
  | Char_U | UChar | WChar_U | Char8 | Char16 | Char32
  | UShort | UInt | ULong | ULongLong | UInt128
  | Char_S | SChar | WChar_S
  | Short | Int | Long | LongLong | Int128
  | ShortAccum
  | Half | Float | Double | LongDouble | Float16 | BFloat16 | Float128
  | NullPtr
  | Dependent | Overload | BoundMember | UnknownAny | BuiltinFn
  | SveInt8 | SveBool
  deriving DecidableEq, Repr

/-- A `clang::BuiltinType` as the printer sees it: its kind, the width reported by
`cprint.getTypeSize(type)`, and the spelling returned by `getNameAsCString`. -/
structure BuiltinType where
  kind : BuiltinKind
  typeSize : Nat
  name : String
  deriving DecidableEq, Repr

namespace BuiltinType

/-- The clang predicate `Type::isAnyCharacterType` on a builtin type. -/
def isAnyCharacterType (b : BuiltinType) : Bool :=
  match b.kind with
  | .Char_U | .UChar | .WChar_U | .Char8 | .Char16 | .Char32
  | .Char_S | .SChar | .WChar_S => true
  | _ => false

/-- The clang predicate `BuiltinType::isFloatingPoint`: kinds `Half` to `Float128`. -/
def isFloatingPoint (b : BuiltinType) : Bool :=
  match b.kind with
  | .Half | .Float | .Double | .LongDouble | .Float16 | .BFloat16 | .Float128 => true
  | _ => false

/-- The clang predicate `BuiltinType::isSignedInteger`: kinds `Char_S` to `Int128`. -/
def isSignedInteger (b : BuiltinType) : Bool :=
  match b.kind with
  | .Char_S | .SChar | .WChar_S | .Short | .Int | .Long | .LongLong | .Int128 => true
  | _ => false

/-- The clang predicate `BuiltinType::isUnsignedInteger`: kinds `Bool` to `UInt128`. -/
def isUnsignedInteger (b : BuiltinType) : Bool :=
  match b.kind with
  | .Bool | .Char_U | .UChar | .WChar_U | .Char8 | .Char16 | .Char32
  | .UShort | .UInt | .ULong | .ULongLong | .UInt128 => true
  | _ => false

/-- The clang predicate `Type::isIntegerType` on a builtin type: kinds `Bool` to
`Int128`. -/
def isIntegerType (b : BuiltinType) : Bool :=
  b.isUnsignedInteger || b.isSignedInteger

/-- The clang predicate `Type::isSignedIntegerType` on a builtin type. -/
def isSignedIntegerType (b : BuiltinType) : Bool :=
  b.isSignedInteger

/-- The clang predicate `Type::isUnsignedIntegerType` on a builtin type. -/
def isUnsignedIntegerType (b : BuiltinType) : Bool :=
  b.isUnsignedInteger

/-- The clang predicate `Type::isSizelessBuiltinType`: the scalable vector kinds. -/
def isSizelessBuiltinType (b : BuiltinType) : Bool :=
  match b.kind with
  | .SveInt8 | .SveBool => true
  | _ => false

end BuiltinType

/-- A declaration handle.  The printer reads nothing of a declaration but the global
name that `ClangPrinter::printGlobalName` prints for it. -/
structure NamedDecl where
  globalName : String
  deriving DecidableEq, Repr

/-- A calling convention, identified by the token `ClangPrinter::printCallingConv`
prints for it. -/
structure CallingConv where
  token : String
  deriving DecidableEq, Repr

mutual

/-- A `clang::QualType`: a possibly null pointer to a type node together with the
const and volatile bits of this one reference. -/
inductive QualType where
  | mk (typePtr : Option ClangType) (localConst localVolatile : Bool)

/-- A `clang::Type` node: what the printer reads of the `Type` base class, namely the
volatile bit of the node's `CanonicalType` (read through
`QualType::isVolatileQualified`; set for instance on the typedef type `vint` after
`typedef volatile int vint;`), and the data of the concrete type class. -/
inductive ClangType where
  | mk (canonicalVolatile : Bool) (node : TypeNode)

/-- The type classes, each with the values of the accessors its `Visit...Type` method
calls.  `Enum` and `Record` also carry data of their declarations that the visitor could
reach but does not read: the enum's written underlying type and the types of the
record's fields.  `Unhandled` stands for every type class without a method in
`PrintType` (vector, complex, block pointer, ...).

`TemplateTypeParm` carries the name of `getDecl()`, or `none` when `getDecl()` is null,
as it is for a canonical template type parameter.  `Decltype` and `TypeOfExpr` are the
nodes with `isSugared()` true, for which `desugar()` is another type;
`DependentDecltype` and `DependentTypeOfExpr` are the nodes of the same two type
classes with `isSugared()` false (the expression is dependent), for which clang's
`desugar()` returns `QualType(this, 0)`, the node itself without qualifiers. -/
inductive TypeNode where
  | Builtin (type : BuiltinType)
  | Attributed (modifiedType : QualType)
  | Deduced (deducedType : QualType)
  | TemplateTypeParm (declName : Option String)
  | Enum (decl : NamedDecl) (integerType : QualType) (canonicalPromotionType : QualType)
  | Record (decl : NamedDecl) (fields : List QualType)
  | Paren (innerType : QualType)
  | LValueReference (pointeeType : QualType)
  | RValueReference (pointeeType : QualType)
  | Pointer (pointeeType : QualType)
  | Typedef (decl : NamedDecl) (canonicalUnderlyingType : QualType)
  | FunctionProto (callConv : CallingConv) (returnType : QualType)
      (paramTypes : List QualType)
  | Elaborated (namedType : QualType)
  | ConstantArray (elementType : QualType) (size : Nat)
  | SubstTemplateTypeParm (replacementType : QualType)
  | IncompleteArray (elementType : QualType)
  | Decayed (pointeeType : QualType)
  | TemplateSpecialization (isSugared : Bool) (desugared : QualType)
  | Decltype (desugared : QualType)
  | TypeOfExpr (desugared : QualType)
  | DependentDecltype
  | DependentTypeOfExpr
  | InjectedClassName (decl : Option NamedDecl) (injectedSpecializationType : QualType)
  | MemberPointer (classDecl : NamedDecl) (pointeeType : QualType)
  | Unhandled (typeClassName : String)

end

namespace ClangType

/-- The volatile bit of `Type::CanonicalType`. -/
def canonicalVolatile : ClangType → Bool
  | mk cv _ => cv

/-- The data of the concrete type class. -/
def node : ClangType → TypeNode
  | mk _ n => n

end ClangType

namespace QualType

/-- The clang accessor `QualType::getTypePtrOrNull`. -/
def getTypePtrOrNull : QualType → Option ClangType
  | mk p _ _ => p

/-- The clang predicate `QualType::isLocalConstQualified`. -/
def isLocalConstQualified : QualType → Bool
  | mk _ c _ => c

/-- The clang predicate `QualType::isLocalVolatileQualified`. -/
def isLocalVolatileQualified : QualType → Bool
  | mk _ _ v => v

/-- The clang predicate `QualType::isVolatileQualified`: the local bit, or the volatile
bit of the canonical type of the node referred to. -/
def isVolatileQualified : QualType → Bool
  | mk (some p) _ v => v || p.canonicalVolatile
  | mk none _ v => v

end QualType

/-! ## Collaborators of the visitor -/

/-- Modelled from the spec: `ClangPrinter::printGlobalName` is not among the sources.
The spec's Name Resolver returns the canonical global identifier of a declaration as a
string; it is printed as one string literal in double quotes. -/
def printGlobalName (decl : NamedDecl) (print : Formatter) : Formatter :=
  print.text ("\"" ++ decl.globalName ++ "\"")

/-- Modelled from the spec: `ClangPrinter::printCallingConv` is not among the sources.
The spec's Name Resolver returns one calling-convention token, printed as it is. -/
def printCallingConv (cc : CallingConv) (print : Formatter) : Formatter :=
  print.text cc.token

/-- The saturating conversion `llvm::APInt::getLimitedValue()` with its default limit
`UINT64_MAX`. -/
def getLimitedValue (n : Nat) : Nat :=
  if n < 2 ^ 64 then n else 2 ^ 64 - 1

/-! ## PrintType.cpp -/

/-- The function `bitsize` (PrintType.cpp 60-76). -/
def bitsize (n : Nat) : String :=
  match n with
  | 8 => "W8"
  | 16 => "W16"
  | 32 => "W32"
  | 64 => "W64"
  | 128 => "W128"
  | _ => "unknown_bit_size"

/-- The method `PrintType::printTypeSugar` (PrintType.cpp 139-182).  No function of
PrintType.cpp calls it. -/
def printTypeSugar (type : BuiltinType) (print : Formatter) : Formatter :=
  if type.isSignedIntegerType then
    match type.typeSize with
    | 8 => print.text "T_int8"
    | 16 => print.text "T_int16"
    | 32 => print.text "T_int32"
    | 64 => print.text "T_int64"
    | 128 => print.text "T_int128"
    | sz => ((print.text "(Tint ").text (bitsize sz)).text " Signed)"
  else if type.isUnsignedIntegerType then
    match type.typeSize with
    | 8 => print.text "T_uint8"
    | 16 => print.text "T_uint16"
    | 32 => print.text "T_uint32"
    | 64 => print.text "T_uint64"
    | 128 => print.text "T_uint128"
    | sz => ((print.text "(Tint ").text (bitsize sz)).text " Unsigned)"
  else print

/-- The method `PrintType::VisitBuiltinType` (PrintType.cpp 184-224). -/
def VisitBuiltinType (type : BuiltinType) (print : Formatter) : Outcome :=
  match type.kind with
  | .Bool => .ok (print.text "Tbool")
  | .Void => .ok (print.text "Tvoid")
  | .NullPtr => .ok (print.text "Tnullptr")
  | _ =>
    if type.isAnyCharacterType then
      .ok (((((print.text "(Tchar ").text (bitsize type.typeSize)).text " ").text
        (if type.isSignedInteger then "Signed" else "Unsigned")).text ")")
    else if type.isFloatingPoint then
      .ok (((print.text "(Tfloat ").text (bitsize type.typeSize)).text ")")
    else if type.isIntegerType then
      .ok (((((print.text "(Tint ").text (bitsize type.typeSize)).text " ").text
        (if type.isSignedInteger then "Signed" else "Unsigned")).text ")")
    else if type.isSizelessBuiltinType then
      .ok (((((print.lparen).text "Tarch None \"").text type.name).text "\"").rparen)
    else
      .fatal print

mutual

/-- The free function `printQualType` (PrintType.cpp 22-47).  A call
`cprint.printType(p, print)` is `depthChecked (Visit p) print`. -/
def printQualType : QualType → Formatter → Outcome
  | .mk (some p) isLocalConst isLocalVolatile, print =>
    if QualType.isLocalConstQualified (.mk (some p) isLocalConst isLocalVolatile) then
      (depthChecked (Visit p)
        (if QualType.isVolatileQualified (.mk (some p) isLocalConst isLocalVolatile) then
          print.ctor "Qconst_volatile" false
        else
          print.ctor "Qconst" false)).bind
        fun print => .ok print.end_ctor
    else
      if QualType.isLocalVolatileQualified (.mk (some p) isLocalConst isLocalVolatile) then
        (depthChecked (Visit p) (print.ctor "Qmut_volatile" false)).bind
          fun print => .ok print.end_ctor
      else
        depthChecked (Visit p) print
  | .mk none _ _, print => .fatal print

/-- The dispatch `PrintType::printer.Visit(type, print, cprint)` of clang's
`TypeVisitor` to the `Visit...Type` method of the node's type class (PrintType.cpp
86-355); a class without a method of its own falls back to `VisitType`.  A call
`cprint.printQualType(qt, print)` is `depthChecked (printQualType qt) print`, a call
`printQualType(qt, print, cprint)` is the free function. -/
def Visit : ClangType → Formatter → Outcome
  -- VisitBuiltinType
  | .mk _ (.Builtin type), print => VisitBuiltinType type print
  -- VisitAttributedType
  | .mk _ (.Attributed modifiedType), print =>
    depthChecked (printQualType modifiedType) print
  -- VisitDeducedType
  | .mk _ (.Deduced deducedType), print =>
    depthChecked (printQualType deducedType) print
  -- VisitTemplateTypeParmType
  | .mk _ (.TemplateTypeParm (some declName)), print =>
    .ok (((((print.ctor "Ttemplate" true).text "\"").text declName).text "\"").end_ctor)
  -- VisitTemplateTypeParmType with a null `type->getDecl()`: the operands of `<<` are
  -- evaluated from left to right, so the constructor and the opening quote are written,
  -- then `getDecl()->getNameAsString()` dereferences null
  | .mk _ (.TemplateTypeParm none), print =>
    .nullDeref ((print.ctor "Ttemplate" true).text "\"")
  -- VisitEnumType
  | .mk _ (.Enum decl _ canonicalPromotionType), print =>
    (depthChecked (printQualType canonicalPromotionType)
      ((printGlobalName decl (print.ctor "@Talias" false)).nbsp)).bind
      fun print => .ok print.end_ctor
  -- VisitRecordType
  | .mk _ (.Record decl _), print =>
    .ok ((printGlobalName decl (print.ctor "Tnamed" false)).end_ctor)
  -- VisitParenType
  | .mk _ (.Paren innerType), print =>
    depthChecked (printQualType innerType) print
  -- VisitLValueReferenceType
  | .mk _ (.LValueReference pointeeType), print =>
    (printQualType pointeeType (print.ctor "Tref" false)).bind
      fun print => .ok print.end_ctor
  -- VisitRValueReferenceType
  | .mk _ (.RValueReference pointeeType), print =>
    (printQualType pointeeType (print.ctor "Trv_ref" false)).bind
      fun print => .ok print.end_ctor
  -- VisitPointerType
  | .mk _ (.Pointer pointeeType), print =>
    (printQualType pointeeType (print.ctor "Tptr" false)).bind
      fun print => .ok print.end_ctor
  -- VisitTypedefType
  | .mk _ (.Typedef decl canonicalUnderlyingType), print =>
    (depthChecked (printQualType canonicalUnderlyingType)
      ((printGlobalName decl (print.ctor "@Talias" false)).nbsp)).bind
      fun print => .ok print.rparen
  -- VisitFunctionProtoType
  | .mk _ (.FunctionProto callConv returnType paramTypes), print =>
    (printQualType returnType
      ((printCallingConv callConv (print.ctor "@Tfunction" true)).nbsp)).bind
      fun print => (printParamTypes paramTypes (print.nbsp.begin_list)).bind
        fun print => .ok (print.end_list.end_ctor)
  -- VisitElaboratedType
  | .mk _ (.Elaborated namedType), print =>
    printQualType namedType print
  -- VisitConstantArrayType
  | .mk _ (.ConstantArray elementType size), print =>
    (printQualType elementType (print.ctor "Tarray" true)).bind
      fun print => .ok (((print.nbsp).num (getLimitedValue size)).rparen)
  -- VisitSubstTemplateTypeParmType
  | .mk _ (.SubstTemplateTypeParm replacementType), print =>
    printQualType replacementType print
  -- VisitIncompleteArrayType
  | .mk _ (.IncompleteArray elementType), print =>
    (printQualType elementType ((print.ctor "Qconst" true).ctor "Tptr" false)).bind
      fun print => .ok (print.rparen.rparen)
  -- VisitDecayedType
  | .mk _ (.Decayed pointeeType), print =>
    (printQualType pointeeType ((print.ctor "Qconst" true).ctor "Tptr" false)).bind
      fun print => .ok (print.rparen.rparen)
  -- VisitTemplateSpecializationType
  | .mk _ (.TemplateSpecialization isSugared desugared), print =>
    if isSugared then
      depthChecked (printQualType desugared) print
    else
      -- VisitType
      .fatal print
  -- VisitDecltypeType
  | .mk _ (.Decltype desugared), print =>
    depthChecked (printQualType desugared) print
  -- VisitDecltypeType on a node that is not sugared: `type->desugar()` is
  -- `QualType(this, 0)`, so `cprint.printQualType` calls `cprint.printType` on this
  -- very node, which dispatches to this handler again with the formatter unchanged
  -- (see `VisitStep`); the recursion has no end
  | .mk _ .DependentDecltype, print => .diverges print
  -- VisitTypeOfExprType
  | .mk _ (.TypeOfExpr desugared), print =>
    depthChecked (printQualType desugared) print
  -- VisitTypeOfExprType on a node that is not sugared: as for decltype
  | .mk _ .DependentTypeOfExpr, print => .diverges print
  -- VisitInjectedClassNameType
  | .mk _ (.InjectedClassName (some decl) _), print =>
    .ok ((printGlobalName decl (print.ctor "Tnamed" true)).end_ctor)
  | .mk _ (.InjectedClassName none injectedSpecializationType), print =>
    depthChecked (printQualType injectedSpecializationType) print
  -- VisitMemberPointerType
  | .mk _ (.MemberPointer classDecl pointeeType), print =>
    (depthChecked (printQualType pointeeType)
      ((printGlobalName classDecl (print.ctor "Tmember_pointer" true)).nbsp)).bind
      fun print => .ok print.end_ctor
  -- VisitType
  | .mk _ (.Unhandled _), print => .fatal print

/-- The loop over `type->param_types()` in `VisitFunctionProtoType` (PrintType.cpp
265-268): each parameter type is printed and followed by `print.cons()`. -/
def printParamTypes : List QualType → Formatter → Outcome
  | [], print => .ok print
  | i :: rest, print =>
    (printQualType i print).bind fun print => printParamTypes rest print.cons

end

/-- The method `ClangPrinter::printType` (PrintType.cpp 360-365). -/
def ClangPrinter.printType (type : ClangType) (print : Formatter) : Outcome :=
  depthChecked (Visit type) print

/-- The method `ClangPrinter::printQualType` (PrintType.cpp 367-372). -/
def ClangPrinter.printQualType (qt : QualType) (print : Formatter) : Outcome :=
  depthChecked (BRiCk.printQualType qt) print

/-- The method `ClangPrinter::printQualifier(bool, bool, CoqPrinter&)` (PrintType.cpp
381-397). -/
def ClangPrinter.printQualifier (is_const is_volatile : Bool) (print : Formatter) :
    Formatter :=
  if is_const then
    if is_volatile then print.text "QCV" else print.text "QC"
  else
    if is_volatile then print.text "QV" else print.text "QM"

/-! ## ModuleBuilder.hpp -/

/-- The struct `Module::Flags` (ModuleBuilder.hpp 21-36). -/
structure Module.Flags where
  in_template : Bool
  in_specialization : Bool
  deriving DecidableEq, Repr

/-- The method `Module::Flags::set_template` (ModuleBuilder.hpp 26-28). -/
def Module.Flags.set_template (flags : Module.Flags) : Module.Flags :=
  ⟨true, flags.in_specialization⟩

/-- The method `Module::Flags::set_specialization` (ModuleBuilder.hpp 29-31). -/
def Module.Flags.set_specialization (flags : Module.Flags) : Module.Flags :=
  ⟨flags.in_template, true⟩

/-- The method `Module::Flags::none` (ModuleBuilder.hpp 33-35). -/
def Module.Flags.none (flags : Module.Flags) : Bool :=
  !flags.in_template && !flags.in_specialization

/-- One of the two operations that produce new flags. -/
inductive Module.Flags.Op where
  | set_template
  | set_specialization
  deriving DecidableEq, Repr

/-- The flags after one operation. -/
def Module.Flags.apply (flags : Module.Flags) : Module.Flags.Op → Module.Flags
  | .set_template => flags.set_template
  | .set_specialization => flags.set_specialization

/-- A handle of a `clang::StaticAssertDecl`. -/
structure StaticAssertDecl where
  id : Nat
  deriving DecidableEq, Repr

/-- The data members of the class `Module` (ModuleBuilder.hpp 69-77); a `DeclList` is a
list of declaration handles. -/
structure Module where
  trace_ : Bool
  declarations_ : List NamedDecl
  definitions_ : List NamedDecl
  template_declarations_ : List NamedDecl
  template_definitions_ : List NamedDecl
  asserts_ : List StaticAssertDecl
  deriving DecidableEq, Repr

/-- The accessor `Module::asserts` (ModuleBuilder.hpp 45-47). -/
def Module.asserts (m : Module) : List StaticAssertDecl :=
  m.asserts_

/-- The accessor `Module::declarations` (ModuleBuilder.hpp 49-51). -/
def Module.declarations (m : Module) : List NamedDecl :=
  m.declarations_

/-- The accessor `Module::definitions` (ModuleBuilder.hpp 53-55). -/
def Module.definitions (m : Module) : List NamedDecl :=
  m.definitions_

/-- The accessor `Module::template_declarations` (ModuleBuilder.hpp 57-59). -/
def Module.template_declarations (m : Module) : List NamedDecl :=
  m.template_declarations_

/-- The accessor `Module::template_definitions` (ModuleBuilder.hpp 61-63). -/
def Module.template_definitions (m : Module) : List NamedDecl :=
  m.template_definitions_

/-- Modelled from the spec: the body of `Module::add_decl` (declared at
ModuleBuilder.hpp 79-80) is not among the sources.  By the spec the declaration is
routed by `flags.in_template` alone, into the template sequence when it is set and into
the plain sequence otherwise, and appended at the end.  The result is the pair of the
two sequences after the call. -/
def Module.add_decl (decls tdecls : List NamedDecl) (decl : NamedDecl)
    (flags : Module.Flags) : List NamedDecl × List NamedDecl :=
  if flags.in_template then (decls, tdecls ++ [decl]) else (decls ++ [decl], tdecls)

/-- Modelled from the spec: the body of `Module::add_definition` (declared at
ModuleBuilder.hpp 38) is not among the sources.  By the spec it routes the declaration
into `definitions` or `template_definitions` through `add_decl`. -/
def Module.add_definition (m : Module) (decl : NamedDecl) (flags : Module.Flags) : Module :=
  ⟨m.trace_, m.declarations_,
    (Module.add_decl m.definitions_ m.template_definitions_ decl flags).1,
    m.template_declarations_,
    (Module.add_decl m.definitions_ m.template_definitions_ decl flags).2, m.asserts_⟩

/-- Modelled from the spec: the body of `Module::add_declaration` (declared at
ModuleBuilder.hpp 39) is not among the sources.  By the spec it routes the declaration
into `declarations` or `template_declarations` through `add_decl`. -/
def Module.add_declaration (m : Module) (decl : NamedDecl) (flags : Module.Flags) : Module :=
  ⟨m.trace_, (Module.add_decl m.declarations_ m.template_declarations_ decl flags).1,
    m.definitions_,
    (Module.add_decl m.declarations_ m.template_declarations_ decl flags).2,
    m.template_definitions_, m.asserts_⟩

/-- One call of the public interface that adds a declaration. -/
inductive Module.Call where
  | add_declaration (decl : NamedDecl) (flags : Module.Flags)
  | add_definition (decl : NamedDecl) (flags : Module.Flags)
  deriving DecidableEq, Repr

/-- The module after one call. -/
def Module.call (m : Module) : Module.Call → Module
  | .add_declaration decl flags => m.add_declaration decl flags
  | .add_definition decl flags => m.add_definition decl flags

/-- The module after a sequence of calls, made in order. -/
def Module.run (m : Module) (calls : List Module.Call) : Module :=
  calls.foldl Module.call m

/-- The declarations that a sequence of calls presents to the method chosen by
`definition` with `flags.in_template` equal to `template`, in call order and with
repetitions. -/
def Module.presented (definition template : Bool) : List Module.Call → List NamedDecl
  | [] => []
  | .add_declaration decl flags :: rest =>
    if definition = false ∧ flags.in_template = template then
      decl :: Module.presented definition template rest
    else Module.presented definition template rest
  | .add_definition decl flags :: rest =>
    if definition = true ∧ flags.in_template = template then
      decl :: Module.presented definition template rest
    else Module.presented definition template rest

/-! ## Observing a printing call -/

/-- The outcome `o`, recorded from the empty formatter, replayed after `print`: the
recorded output follows the output of `print` and the recorded depth is added. -/
def Outcome.shift (o : Outcome) (print : Formatter) : Outcome :=
  match o with
  | .ok g => .ok ⟨print.out ++ g.out, print.depth + g.depth⟩
  | .fatal g => .fatal ⟨print.out ++ g.out, print.depth + g.depth⟩
  | .assertFailed g => .assertFailed ⟨print.out ++ g.out, print.depth + g.depth⟩
  | .diverges g => .diverges ⟨print.out ++ g.out, print.depth + g.depth⟩
  | .nullDeref g => .nullDeref ⟨print.out ++ g.out, print.depth + g.depth⟩

/-- An outcome recorded from the empty formatter is balanced when a normal return has
closed every parenthesis it opened, a call that does not return has closed no more than
were opened, and no assertion failed. -/
def Outcome.Balanced : Outcome → Prop
  | .ok g => g.depth = 0
  | .fatal g => 0 ≤ g.depth
  | .assertFailed _ => False
  | .diverges g => 0 ≤ g.depth
  | .nullDeref g => 0 ≤ g.depth

/-- A printing call is uniform when it does to every formatter what it does to the
empty one, and what it does there is balanced. -/
def Uniform (m : Formatter → Outcome) : Prop :=
  (m Formatter.empty).Balanced ∧ ∀ print, m print = (m Formatter.empty).shift print

/-- The text a printing call appends to the empty formatter when it returns normally. -/
def emitted (m : Formatter → Outcome) : Option (List Tok) :=
  match m Formatter.empty with
  | .ok after => some after.out
  | _ => none

/-- The spec's `lower`: the text printed by `ClangPrinter::printType`, or `none` when
the call does not return. -/
def lower (type : ClangType) : Option (List Tok) :=
  emitted (ClangPrinter.printType type)

/-- The spec's `lower_qualified`: the text printed by `ClangPrinter::printQualType`, or
`none` when the call does not return. -/
def lower_qualified (qt : QualType) : Option (List Tok) :=
  emitted (ClangPrinter.printQualType qt)

/-- The text of the application of the constructor `name`, opened by
`ctor(name, false)` and closed by one right parenthesis, to the argument text `args`. -/
def app (name : String) (args : List Tok) : List Tok :=
  [Tok.lparen, Tok.text name, Tok.nbsp] ++ args ++ [Tok.rparen]

/-- The text `printGlobalName` prints for a declaration. -/
def globalNameText (decl : NamedDecl) : List Tok :=
  [Tok.text ("\"" ++ decl.globalName ++ "\"")]

/-- The text of the elements of a list literal: each element is followed by the
separator printed by `cons`. -/
def listElems : List (List Tok) → List Tok
  | [] => []
  | t :: ts => t ++ [Tok.text "::"] ++ listElems ts

/-- The text of the ordered list with the element texts `elems`, opened by
`begin_list` and closed by `end_list`. -/
def listText (elems : List (List Tok)) : List Tok :=
  [Tok.lparen] ++ listElems elems ++ [Tok.text "nil", Tok.rparen]

/-! ## Example types -/

/-- The builtin type `int` on a target where `int` has 32 bits. -/
def intType : ClangType :=
  .mk false (.Builtin ⟨.Int, 32, "int"⟩)

/-- The declaration `typedef volatile int vint;`. -/
def vintDecl : NamedDecl :=
  ⟨"vint"⟩

/-- The type `vint` declared by `typedef volatile int vint;`.  Its canonical type is
`volatile int`, so the volatile bit of the canonical type is set. -/
def vintType : ClangType :=
  .mk true (.Typedef vintDecl (.mk (some intType) false true))

/-- The qualified type `const vint`: locally const, not locally volatile. -/
def constVint : QualType :=
  .mk (some vintType) true false

/-- The declaration `typedef const int row_t[4][];`-like alias used below. -/
def rowDecl : NamedDecl :=
  ⟨"row_t"⟩

/-- A typedef whose underlying type is a constant array (4 elements) of incomplete
arrays of `const int`: the typedef, constant-array and incomplete-array handlers all
close with a raw right parenthesis. -/
def rowType : ClangType :=
  .mk false (.Typedef rowDecl (.mk (some (.mk false (.ConstantArray
    (.mk (some (.mk false (.IncompleteArray (.mk (some intType) true false)))) false false)
    4))) false false))

/-- The calling convention printed as `CC_C`. -/
def ccC : CallingConv :=
  ⟨"CC_C"⟩

/-- The text `(Tint W32 Signed)` of the lowered 32-bit `int`. -/
def intText : List Tok :=
  [.text "(Tint ", .text "W32", .text " ", .text "Signed", .text ")"]

/-- The function prototype `int (const int, int)` with the C calling convention. -/
def binaryProto : ClangType :=
  .mk false (.FunctionProto ccC (.mk (some intType) false false)
    [.mk (some intType) true false, .mk (some intType) false false])

/-- The builtin type `char` on a target where `char` is signed and has 8 bits. -/
def charBuiltin : BuiltinType :=
  ⟨.Char_S, 8, "char"⟩

/-! ## The recursion, one level at a time -/

/-- The body of `printQualType` with its call of the visitor taken as the parameter
`visit`: `printQualType` is `printQualTypeStep Visit`. -/
def printQualTypeStep (visit : ClangType → Formatter → Outcome) :
    QualType → Formatter → Outcome
  | .mk (some p) isLocalConst isLocalVolatile, print =>
    if QualType.isLocalConstQualified (.mk (some p) isLocalConst isLocalVolatile) then
      (depthChecked (visit p)
        (if QualType.isVolatileQualified (.mk (some p) isLocalConst isLocalVolatile) then
          print.ctor "Qconst_volatile" false
        else
          print.ctor "Qconst" false)).bind
        fun print => .ok print.end_ctor
    else
      if QualType.isLocalVolatileQualified (.mk (some p) isLocalConst isLocalVolatile) then
        (depthChecked (visit p) (print.ctor "Qmut_volatile" false)).bind
          fun print => .ok print.end_ctor
      else
        depthChecked (visit p) print
  | .mk none _ _, print => .fatal print

/-- The parameter loop of `VisitFunctionProtoType` with its call of `printQualType`
taken as the parameter `pq`. -/
def printParamTypesStep (pq : QualType → Formatter → Outcome) :
    List QualType → Formatter → Outcome
  | [], print => .ok print
  | i :: rest, print => (pq i print).bind fun print => printParamTypesStep pq rest print.cons

/-- The handlers of `PrintType` with their calls of `printQualType` taken as the
parameter `pq`: `Visit` is `VisitStep printQualType`.  Here the handlers of a decltype
or typeof node that is not sugared are written as in the source: they call `pq` on the
node itself. -/
def VisitStep (pq : QualType → Formatter → Outcome) : ClangType → Formatter → Outcome
  -- VisitBuiltinType
  | .mk _ (.Builtin type), print => VisitBuiltinType type print
  -- VisitAttributedType
  | .mk _ (.Attributed modifiedType), print =>
    depthChecked (pq modifiedType) print
  -- VisitDeducedType
  | .mk _ (.Deduced deducedType), print =>
    depthChecked (pq deducedType) print
  -- VisitTemplateTypeParmType
  | .mk _ (.TemplateTypeParm (some declName)), print =>
    .ok (((((print.ctor "Ttemplate" true).text "\"").text declName).text "\"").end_ctor)
  -- VisitTemplateTypeParmType with a null `type->getDecl()`: the operands of `<<` are
  -- evaluated from left to right, so the constructor and the opening quote are written,
  -- then `getDecl()->getNameAsString()` dereferences null
  | .mk _ (.TemplateTypeParm none), print =>
    .nullDeref ((print.ctor "Ttemplate" true).text "\"")
  -- VisitEnumType
  | .mk _ (.Enum decl _ canonicalPromotionType), print =>
    (depthChecked (pq canonicalPromotionType)
      ((printGlobalName decl (print.ctor "@Talias" false)).nbsp)).bind
      fun print => .ok print.end_ctor
  -- VisitRecordType
  | .mk _ (.Record decl _), print =>
    .ok ((printGlobalName decl (print.ctor "Tnamed" false)).end_ctor)
  -- VisitParenType
  | .mk _ (.Paren innerType), print =>
    depthChecked (pq innerType) print
  -- VisitLValueReferenceType
  | .mk _ (.LValueReference pointeeType), print =>
    (pq pointeeType (print.ctor "Tref" false)).bind
      fun print => .ok print.end_ctor
  -- VisitRValueReferenceType
  | .mk _ (.RValueReference pointeeType), print =>
    (pq pointeeType (print.ctor "Trv_ref" false)).bind
      fun print => .ok print.end_ctor
  -- VisitPointerType
  | .mk _ (.Pointer pointeeType), print =>
    (pq pointeeType (print.ctor "Tptr" false)).bind
      fun print => .ok print.end_ctor
  -- VisitTypedefType
  | .mk _ (.Typedef decl canonicalUnderlyingType), print =>
    (depthChecked (pq canonicalUnderlyingType)
      ((printGlobalName decl (print.ctor "@Talias" false)).nbsp)).bind
      fun print => .ok print.rparen
  -- VisitFunctionProtoType
  | .mk _ (.FunctionProto callConv returnType paramTypes), print =>
    (pq returnType
      ((printCallingConv callConv (print.ctor "@Tfunction" true)).nbsp)).bind
      fun print => (printParamTypesStep pq paramTypes (print.nbsp.begin_list)).bind
        fun print => .ok (print.end_list.end_ctor)
  -- VisitElaboratedType
  | .mk _ (.Elaborated namedType), print =>
    pq namedType print
  -- VisitConstantArrayType
  | .mk _ (.ConstantArray elementType size), print =>
    (pq elementType (print.ctor "Tarray" true)).bind
      fun print => .ok (((print.nbsp).num (getLimitedValue size)).rparen)
  -- VisitSubstTemplateTypeParmType
  | .mk _ (.SubstTemplateTypeParm replacementType), print =>
    pq replacementType print
  -- VisitIncompleteArrayType
  | .mk _ (.IncompleteArray elementType), print =>
    (pq elementType ((print.ctor "Qconst" true).ctor "Tptr" false)).bind
      fun print => .ok (print.rparen.rparen)
  -- VisitDecayedType
  | .mk _ (.Decayed pointeeType), print =>
    (pq pointeeType ((print.ctor "Qconst" true).ctor "Tptr" false)).bind
      fun print => .ok (print.rparen.rparen)
  -- VisitTemplateSpecializationType
  | .mk _ (.TemplateSpecialization isSugared desugared), print =>
    if isSugared then
      depthChecked (pq desugared) print
    else
      -- VisitType
      .fatal print
  -- VisitDecltypeType
  | .mk _ (.Decltype desugared), print =>
    depthChecked (pq desugared) print
  -- VisitDecltypeType on a node that is not sugared: `type->desugar()` is
  -- `QualType(this, 0)`
  | .mk cv .DependentDecltype, print =>
    depthChecked (pq (.mk (some (.mk cv .DependentDecltype)) false false)) print
  -- VisitTypeOfExprType
  | .mk _ (.TypeOfExpr desugared), print =>
    depthChecked (pq desugared) print
  -- VisitTypeOfExprType on a node that is not sugared: `type->desugar()` is
  -- `QualType(this, 0)`
  | .mk cv .DependentTypeOfExpr, print =>
    depthChecked (pq (.mk (some (.mk cv .DependentTypeOfExpr)) false false)) print
  -- VisitInjectedClassNameType
  | .mk _ (.InjectedClassName (some decl) _), print =>
    .ok ((printGlobalName decl (print.ctor "Tnamed" true)).end_ctor)
  | .mk _ (.InjectedClassName none injectedSpecializationType), print =>
    depthChecked (pq injectedSpecializationType) print
  -- VisitMemberPointerType
  | .mk _ (.MemberPointer classDecl pointeeType), print =>
    (depthChecked (pq pointeeType)
      ((printGlobalName classDecl (print.ctor "Tmember_pointer" true)).nbsp)).bind
      fun print => .ok print.end_ctor
  -- VisitType
  | .mk _ (.Unhandled _), print => .fatal print

/-- The visitor unfolded `n` levels deep: below the `n`-th level of recursive calls an
arbitrary function `base` stands in for the visitor. -/
def unfoldVisit (base : ClangType → Formatter → Outcome) :
    Nat → ClangType → Formatter → Outcome
  | 0 => base
  | n + 1 => VisitStep (printQualTypeStep (unfoldVisit base n))

mutual

/-- The nesting depth of the type referred to; a null reference has depth 0. -/
def nestingDepthQual : QualType → Nat
  | .mk none _ _ => 0
  | .mk (some p) _ _ => nestingDepth p

/-- The nesting depth of a type: a node without component types has depth 1, any
other node one more than the deepest of its component types.  Records and template
type parameters are leaves; the field types of a record and the written underlying
type of an enum belong to the declarations, not to the type. -/
def nestingDepth : ClangType → Nat
  | .mk _ (.Builtin _) => 1
  | .mk _ (.Attributed modifiedType) => nestingDepthQual modifiedType + 1
  | .mk _ (.Deduced deducedType) => nestingDepthQual deducedType + 1
  | .mk _ (.TemplateTypeParm _) => 1
  | .mk _ (.Enum _ _ canonicalPromotionType) => nestingDepthQual canonicalPromotionType + 1
  | .mk _ (.Record _ _) => 1
  | .mk _ (.Paren innerType) => nestingDepthQual innerType + 1
  | .mk _ (.LValueReference pointeeType) => nestingDepthQual pointeeType + 1
  | .mk _ (.RValueReference pointeeType) => nestingDepthQual pointeeType + 1
  | .mk _ (.Pointer pointeeType) => nestingDepthQual pointeeType + 1
  | .mk _ (.Typedef _ canonicalUnderlyingType) =>
    nestingDepthQual canonicalUnderlyingType + 1
  | .mk _ (.FunctionProto _ returnType paramTypes) =>
    max (nestingDepthQual returnType) (nestingDepthParams paramTypes) + 1
  | .mk _ (.Elaborated namedType) => nestingDepthQual namedType + 1
  | .mk _ (.ConstantArray elementType _) => nestingDepthQual elementType + 1
  | .mk _ (.SubstTemplateTypeParm replacementType) => nestingDepthQual replacementType + 1
  | .mk _ (.IncompleteArray elementType) => nestingDepthQual elementType + 1
  | .mk _ (.Decayed pointeeType) => nestingDepthQual pointeeType + 1
  | .mk _ (.TemplateSpecialization _ desugared) => nestingDepthQual desugared + 1
  | .mk _ (.Decltype desugared) => nestingDepthQual desugared + 1
  | .mk _ (.TypeOfExpr desugared) => nestingDepthQual desugared + 1
  | .mk _ .DependentDecltype => 1
  | .mk _ .DependentTypeOfExpr => 1
  | .mk _ (.InjectedClassName _ injectedSpecializationType) =>
    nestingDepthQual injectedSpecializationType + 1
  | .mk _ (.MemberPointer _ pointeeType) => nestingDepthQual pointeeType + 1
  | .mk _ (.Unhandled _) => 1

/-- The greatest nesting depth among the types of a list. -/
def nestingDepthParams : List QualType → Nat
  | [] => 0
  | i :: rest => max (nestingDepthQual i) (nestingDepthParams rest)

end

/-- A builtin integer type of kind `Int` and width 24. -/
def int24 : BuiltinType :=
  ⟨.Int, 24, "int24"⟩

/-- A builtin integer type of kind `Long` and width 48. -/
def long48 : BuiltinType :=
  ⟨.Long, 48, "long48"⟩

/-- The pointer type `int *`. -/
def ptrToInt : ClangType :=
  .mk false (.Pointer (.mk (some intType) false false))

/-- A stand-in for the visitor that answers every call with a failed assertion. -/
def noVisit (_ : ClangType) (print : Formatter) : Outcome :=
  .assertFailed print

/-! ## The unsupported constructs, in the words of the spec -/

/-- Following the spec's words: a builtin is supported when it is `bool`, `void`,
`nullptr`, a character type, a floating type, an integer type or a sizeless
architecture-specific type. -/
def supportedBuiltin (type : BuiltinType) : Bool :=
  type.kind == .Bool || type.kind == .Void || type.kind == .NullPtr ||
    type.isAnyCharacterType || type.isFloatingPoint || type.isIntegerType ||
    type.isSizelessBuiltinType

mutual

/-- Following the spec's words: the recursive descent from a qualified type reaches an
unsupported construct when its type node is null, or the descent from the node does. -/
def reachesUnsupportedQual : QualType → Bool
  | .mk none _ _ => true
  | .mk (some p) _ _ => reachesUnsupported p

/-- Following the spec's words: the recursive descent from a type node reaches an
unsupported construct when the node is of a kind without a handler, an unsupported
builtin or a template specialization that is not sugared, or when the descent from one
of the component types the node's handler recurses into does.  Records, template type
parameters and injected class names with a declaration have no such component, and a
decltype or typeof node that is not sugared is none of the spec's four cases. -/
def reachesUnsupported : ClangType → Bool
  | .mk _ (.Unhandled _) => true
  | .mk _ (.Builtin type) => !supportedBuiltin type
  | .mk _ (.TemplateSpecialization isSugared desugared) =>
    !isSugared || reachesUnsupportedQual desugared
  | .mk _ (.Record _ _) => false
  | .mk _ (.TemplateTypeParm _) => false
  | .mk _ (.InjectedClassName (some _) _) => false
  | .mk _ (.InjectedClassName none injectedSpecializationType) =>
    reachesUnsupportedQual injectedSpecializationType
  | .mk _ (.Pointer pointeeType) => reachesUnsupportedQual pointeeType
  | .mk _ (.LValueReference pointeeType) => reachesUnsupportedQual pointeeType
  | .mk _ (.RValueReference pointeeType) => reachesUnsupportedQual pointeeType
  | .mk _ (.MemberPointer _ pointeeType) => reachesUnsupportedQual pointeeType
  | .mk _ (.ConstantArray elementType _) => reachesUnsupportedQual elementType
  | .mk _ (.IncompleteArray elementType) => reachesUnsupportedQual elementType
  | .mk _ (.Decayed pointeeType) => reachesUnsupportedQual pointeeType
  | .mk _ (.FunctionProto _ returnType paramTypes) =>
    reachesUnsupportedQual returnType || reachesUnsupportedParams paramTypes
  | .mk _ (.Enum _ _ canonicalPromotionType) => reachesUnsupportedQual canonicalPromotionType
  | .mk _ (.Typedef _ canonicalUnderlyingType) =>
    reachesUnsupportedQual canonicalUnderlyingType
  | .mk _ (.Attributed modifiedType) => reachesUnsupportedQual modifiedType
  | .mk _ (.Deduced deducedType) => reachesUnsupportedQual deducedType
  | .mk _ (.Paren innerType) => reachesUnsupportedQual innerType
  | .mk _ (.Elaborated namedType) => reachesUnsupportedQual namedType
  | .mk _ (.SubstTemplateTypeParm replacementType) => reachesUnsupportedQual replacementType
  | .mk _ (.Decltype desugared) => reachesUnsupportedQual desugared
  | .mk _ (.TypeOfExpr desugared) => reachesUnsupportedQual desugared
  | .mk _ .DependentDecltype => false
  | .mk _ .DependentTypeOfExpr => false

/-- Following the spec's words: the descent reaches an unsupported construct from one
of the parameter types. -/
def reachesUnsupportedParams : List QualType → Bool
  | [] => false
  | i :: rest => reachesUnsupportedQual i || reachesUnsupportedParams rest

end

/-! ## Types on which the recursion is well founded -/

mutual

/-- Whether the descent from a qualified type stays within resolved nodes. -/
def resolvedQual : QualType → Bool
  | .mk none _ _ => true
  | .mk (some p) _ _ => resolved p

/-- Whether the descent from a type node meets neither a decltype or typeof node that is
not sugared (on which the handler calls itself) nor a template type parameter without
declaration (on which the handler dereferences null).  The descent follows the
component types the handlers recurse into, as `reachesUnsupported` does. -/
def resolved : ClangType → Bool
  | .mk _ .DependentDecltype => false
  | .mk _ .DependentTypeOfExpr => false
  | .mk _ (.TemplateTypeParm none) => false
  | .mk _ (.TemplateTypeParm (some _)) => true
  | .mk _ (.Unhandled _) => true
  | .mk _ (.Builtin _) => true
  | .mk _ (.TemplateSpecialization isSugared desugared) =>
    !isSugared || resolvedQual desugared
  | .mk _ (.Record _ _) => true
  | .mk _ (.InjectedClassName (some _) _) => true
  | .mk _ (.InjectedClassName none injectedSpecializationType) =>
    resolvedQual injectedSpecializationType
  | .mk _ (.Pointer pointeeType) => resolvedQual pointeeType
  | .mk _ (.LValueReference pointeeType) => resolvedQual pointeeType
  | .mk _ (.RValueReference pointeeType) => resolvedQual pointeeType
  | .mk _ (.MemberPointer _ pointeeType) => resolvedQual pointeeType
  | .mk _ (.ConstantArray elementType _) => resolvedQual elementType
  | .mk _ (.IncompleteArray elementType) => resolvedQual elementType
  | .mk _ (.Decayed pointeeType) => resolvedQual pointeeType
  | .mk _ (.FunctionProto _ returnType paramTypes) =>
    resolvedQual returnType && resolvedParams paramTypes
  | .mk _ (.Enum _ _ canonicalPromotionType) => resolvedQual canonicalPromotionType
  | .mk _ (.Typedef _ canonicalUnderlyingType) => resolvedQual canonicalUnderlyingType
  | .mk _ (.Attributed modifiedType) => resolvedQual modifiedType
  | .mk _ (.Deduced deducedType) => resolvedQual deducedType
  | .mk _ (.Paren innerType) => resolvedQual innerType
  | .mk _ (.Elaborated namedType) => resolvedQual namedType
  | .mk _ (.SubstTemplateTypeParm replacementType) => resolvedQual replacementType
  | .mk _ (.Decltype desugared) => resolvedQual desugared
  | .mk _ (.TypeOfExpr desugared) => resolvedQual desugared

/-- Whether the descent from each type of a list stays within resolved nodes. -/
def resolvedParams : List QualType → Bool
  | [] => true
  | i :: rest => resolvedQual i && resolvedParams rest

end

/-- The type `decltype(e)` for a dependent expression `e`, as it occurs inside a
template: a decltype node that is not sugared. -/
def dependentDecltype : ClangType :=
  .mk false .DependentDecltype

/-- A stand-in for the visitor that returns at once. -/
def okVisit (_ : ClangType) (print : Formatter) : Outcome :=
  .ok print

/-- A stand-in for the visitor that aborts at once. -/
def fatalVisit (_ : ClangType) (print : Formatter) : Outcome :=
  .fatal print

end BRiCk

namespace BRiCk

/-! ## Every printing call is uniform -/

set_option linter.unnecessarySeqFocus false
set_option linter.unusedTactic false
set_option linter.unreachableTactic false
set_option maxHeartbeats 1600000

theorem Uniform.exists_outcome {m : Formatter → Outcome} (h : Uniform m) :
    ∃ o : Outcome, o.Balanced ∧ m Formatter.empty = o ∧ ∀ print, m print = o.shift print :=
  ⟨_, h.1, rfl, h.2⟩

theorem uniform_depthChecked {m : Formatter → Outcome} (h : Uniform m) :
    Uniform (depthChecked m) := by
  obtain ⟨o, hb, h0, ho⟩ := h.exists_outcome
  refine ⟨?_, fun f => ?_⟩ <;>
  · rcases o with ⟨out, d⟩ | ⟨out, d⟩ | ⟨out, d⟩ | ⟨out, d⟩ | ⟨out, d⟩ <;>
      simp_all [depthChecked, Outcome.shift, Outcome.Balanced, Formatter.empty]

theorem depthChecked_eq {m : Formatter → Outcome} (h : Uniform m) (print : Formatter) :
    depthChecked m print = m print := by
  obtain ⟨o, hb, h0, ho⟩ := h.exists_outcome
  rcases o with ⟨out, d⟩ | ⟨out, d⟩ | ⟨out, d⟩ | ⟨out, d⟩ | ⟨out, d⟩ <;>
    simp_all [depthChecked, Outcome.shift, Outcome.Balanced, Formatter.empty]


theorem uniform_VisitBuiltinType (type : BuiltinType) : Uniform (VisitBuiltinType type) := by
  refine ⟨?_, fun f => ?_⟩
  · unfold VisitBuiltinType
    split <;> (try split_ifs) <;>
      simp [Outcome.Balanced, Formatter.text, Formatter.lparen, Formatter.rparen,
        Formatter.empty]
  · unfold VisitBuiltinType
    split <;> (try split_ifs) <;>
      simp [Outcome.shift, Formatter.text, Formatter.lparen, Formatter.rparen,
        Formatter.empty]

mutual

theorem uniform_printQualType : ∀ qt : QualType, Uniform (printQualType qt)
  | .mk none c v => by
    refine ⟨?_, fun f => ?_⟩ <;>
      simp [printQualType, Outcome.shift, Outcome.Balanced, Formatter.empty]
  | .mk (some p) c v => by
    obtain ⟨o, hb, h0, ho⟩ := (uniform_depthChecked (uniform_Visit p)).exists_outcome
    refine ⟨?_, fun f => ?_⟩ <;>
    · simp only [printQualType, ho]
      rcases o with ⟨out, d⟩ | ⟨out, d⟩ | ⟨out, d⟩ | ⟨out, d⟩ | ⟨out, d⟩ <;>
      split_ifs <;>
        simp_all [Outcome.shift, Outcome.Balanced, Outcome.bind, Formatter.empty,
          Formatter.ctor, Formatter.end_ctor, Formatter.lparen, Formatter.rparen,
          Formatter.text, Formatter.nbsp, Formatter.line, Formatter.num,
          Formatter.begin_list, Formatter.end_list, Formatter.cons,
          printGlobalName, printCallingConv] <;> omega

theorem uniform_Visit : ∀ type : ClangType, Uniform (Visit type)
  | .mk _ (.Builtin type) => by
    simpa only [Visit] using uniform_VisitBuiltinType type
  | .mk _ (.Attributed q) => by
    simpa only [Visit] using uniform_depthChecked (uniform_printQualType q)
  | .mk _ (.Deduced q) => by
    simpa only [Visit] using uniform_depthChecked (uniform_printQualType q)
  | .mk _ (.TemplateTypeParm (some name)) => by
    refine ⟨?_, fun f => ?_⟩ <;>
      simp [Visit, Outcome.shift, Outcome.Balanced, Formatter.empty,
        Formatter.ctor, Formatter.end_ctor, Formatter.lparen, Formatter.rparen,
        Formatter.text, Formatter.nbsp, Formatter.line, printGlobalName]
  | .mk _ (.TemplateTypeParm none) => by
    refine ⟨?_, fun f => ?_⟩ <;>
      simp [Visit, Outcome.shift, Outcome.Balanced, Formatter.empty,
        Formatter.ctor, Formatter.lparen, Formatter.text, Formatter.nbsp, Formatter.line]
  | .mk _ .DependentDecltype => by
    refine ⟨?_, fun f => ?_⟩ <;>
      simp [Visit, Outcome.shift, Outcome.Balanced, Formatter.empty]
  | .mk _ .DependentTypeOfExpr => by
    refine ⟨?_, fun f => ?_⟩ <;>
      simp [Visit, Outcome.shift, Outcome.Balanced, Formatter.empty]
  | .mk _ (.Enum decl _ q) => by
    obtain ⟨o, hb, h0, ho⟩ := (uniform_printQualType q).exists_outcome
    refine ⟨?_, fun f => ?_⟩ <;>
    · simp only [Visit, depthChecked_eq (uniform_printQualType q), ho]
      rcases o with ⟨out, d⟩ | ⟨out, d⟩ | ⟨out, d⟩ | ⟨out, d⟩ | ⟨out, d⟩ <;>
        simp_all [Outcome.shift, Outcome.Balanced, Outcome.bind, Formatter.empty,
          Formatter.ctor, Formatter.end_ctor, Formatter.lparen, Formatter.rparen,
          Formatter.text, Formatter.nbsp, Formatter.line, Formatter.num,
          Formatter.begin_list, Formatter.end_list, Formatter.cons,
          printGlobalName, printCallingConv] <;> omega
  | .mk _ (.Record decl _) => by
    refine ⟨?_, fun f => ?_⟩ <;>
      simp [Visit, Outcome.shift, Outcome.Balanced, Formatter.empty,
        Formatter.ctor, Formatter.end_ctor, Formatter.lparen, Formatter.rparen,
        Formatter.text, Formatter.nbsp, Formatter.line, printGlobalName]
  | .mk _ (.Paren q) => by
    simpa only [Visit] using uniform_depthChecked (uniform_printQualType q)
  | .mk _ (.LValueReference q) => by
    obtain ⟨o, hb, h0, ho⟩ := (uniform_printQualType q).exists_outcome
    refine ⟨?_, fun f => ?_⟩ <;>
    · simp only [Visit, ho]
      rcases o with ⟨out, d⟩ | ⟨out, d⟩ | ⟨out, d⟩ | ⟨out, d⟩ | ⟨out, d⟩ <;>
        simp_all [Outcome.shift, Outcome.Balanced, Outcome.bind, Formatter.empty,
          Formatter.ctor, Formatter.end_ctor, Formatter.lparen, Formatter.rparen,
          Formatter.text, Formatter.nbsp, Formatter.line, Formatter.num,
          Formatter.begin_list, Formatter.end_list, Formatter.cons,
          printGlobalName, printCallingConv] <;> omega
  | .mk _ (.RValueReference q) => by
    obtain ⟨o, hb, h0, ho⟩ := (uniform_printQualType q).exists_outcome
    refine ⟨?_, fun f => ?_⟩ <;>
    · simp only [Visit, ho]
      rcases o with ⟨out, d⟩ | ⟨out, d⟩ | ⟨out, d⟩ | ⟨out, d⟩ | ⟨out, d⟩ <;>
        simp_all [Outcome.shift, Outcome.Balanced, Outcome.bind, Formatter.empty,
          Formatter.ctor, Formatter.end_ctor, Formatter.lparen, Formatter.rparen,
          Formatter.text, Formatter.nbsp, Formatter.line, Formatter.num,
          Formatter.begin_list, Formatter.end_list, Formatter.cons,
          printGlobalName, printCallingConv] <;> omega
  | .mk _ (.Pointer q) => by
    obtain ⟨o, hb, h0, ho⟩ := (uniform_printQualType q).exists_outcome
    refine ⟨?_, fun f => ?_⟩ <;>
    · simp only [Visit, ho]
      rcases o with ⟨out, d⟩ | ⟨out, d⟩ | ⟨out, d⟩ | ⟨out, d⟩ | ⟨out, d⟩ <;>
        simp_all [Outcome.shift, Outcome.Balanced, Outcome.bind, Formatter.empty,
          Formatter.ctor, Formatter.end_ctor, Formatter.lparen, Formatter.rparen,
          Formatter.text, Formatter.nbsp, Formatter.line, Formatter.num,
          Formatter.begin_list, Formatter.end_list, Formatter.cons,
          printGlobalName, printCallingConv] <;> omega
  | .mk _ (.Typedef decl q) => by
    obtain ⟨o, hb, h0, ho⟩ := (uniform_printQualType q).exists_outcome
    refine ⟨?_, fun f => ?_⟩ <;>
    · simp only [Visit, depthChecked_eq (uniform_printQualType q), ho]
      rcases o with ⟨out, d⟩ | ⟨out, d⟩ | ⟨out, d⟩ | ⟨out, d⟩ | ⟨out, d⟩ <;>
        simp_all [Outcome.shift, Outcome.Balanced, Outcome.bind, Formatter.empty,
          Formatter.ctor, Formatter.end_ctor, Formatter.lparen, Formatter.rparen,
          Formatter.text, Formatter.nbsp, Formatter.line, Formatter.num,
          Formatter.begin_list, Formatter.end_list, Formatter.cons,
          printGlobalName, printCallingConv] <;> omega
  | .mk _ (.FunctionProto cc r ps) => by
    obtain ⟨o, hb, h0, ho⟩ := (uniform_printQualType r).exists_outcome
    obtain ⟨o2, hb2, h02, ho2⟩ := (uniform_printParamTypes ps).exists_outcome
    refine ⟨?_, fun f => ?_⟩ <;>
    · simp only [Visit, ho]
      rcases o with ⟨out, d⟩ | ⟨out, d⟩ | ⟨out, d⟩ | ⟨out, d⟩ | ⟨out, d⟩ <;>
      rcases o2 with ⟨out2, d2⟩ | ⟨out2, d2⟩ | ⟨out2, d2⟩ | ⟨out2, d2⟩ |
        ⟨out2, d2⟩ <;>
        simp_all [Outcome.shift, Outcome.Balanced, Outcome.bind, Formatter.empty,
          Formatter.ctor, Formatter.end_ctor, Formatter.lparen, Formatter.rparen,
          Formatter.text, Formatter.nbsp, Formatter.line, Formatter.num,
          Formatter.begin_list, Formatter.end_list, Formatter.cons,
          printGlobalName, printCallingConv] <;> omega
  | .mk _ (.Elaborated q) => by
    simpa only [Visit] using uniform_printQualType q
  | .mk _ (.ConstantArray q size) => by
    obtain ⟨o, hb, h0, ho⟩ := (uniform_printQualType q).exists_outcome
    refine ⟨?_, fun f => ?_⟩ <;>
    · simp only [Visit, ho]
      rcases o with ⟨out, d⟩ | ⟨out, d⟩ | ⟨out, d⟩ | ⟨out, d⟩ | ⟨out, d⟩ <;>
        simp_all [Outcome.shift, Outcome.Balanced, Outcome.bind, Formatter.empty,
          Formatter.ctor, Formatter.end_ctor, Formatter.lparen, Formatter.rparen,
          Formatter.text, Formatter.nbsp, Formatter.line, Formatter.num,
          Formatter.begin_list, Formatter.end_list, Formatter.cons,
          printGlobalName, printCallingConv] <;> omega
  | .mk _ (.SubstTemplateTypeParm q) => by
    simpa only [Visit] using uniform_printQualType q
  | .mk _ (.IncompleteArray q) => by
    obtain ⟨o, hb, h0, ho⟩ := (uniform_printQualType q).exists_outcome
    refine ⟨?_, fun f => ?_⟩ <;>
    · simp only [Visit, ho]
      rcases o with ⟨out, d⟩ | ⟨out, d⟩ | ⟨out, d⟩ | ⟨out, d⟩ | ⟨out, d⟩ <;>
        simp_all [Outcome.shift, Outcome.Balanced, Outcome.bind, Formatter.empty,
          Formatter.ctor, Formatter.end_ctor, Formatter.lparen, Formatter.rparen,
          Formatter.text, Formatter.nbsp, Formatter.line, Formatter.num,
          Formatter.begin_list, Formatter.end_list, Formatter.cons,
          printGlobalName, printCallingConv] <;> omega
  | .mk _ (.Decayed q) => by
    obtain ⟨o, hb, h0, ho⟩ := (uniform_printQualType q).exists_outcome
    refine ⟨?_, fun f => ?_⟩ <;>
    · simp only [Visit, ho]
      rcases o with ⟨out, d⟩ | ⟨out, d⟩ | ⟨out, d⟩ | ⟨out, d⟩ | ⟨out, d⟩ <;>
        simp_all [Outcome.shift, Outcome.Balanced, Outcome.bind, Formatter.empty,
          Formatter.ctor, Formatter.end_ctor, Formatter.lparen, Formatter.rparen,
          Formatter.text, Formatter.nbsp, Formatter.line, Formatter.num,
          Formatter.begin_list, Formatter.end_list, Formatter.cons,
          printGlobalName, printCallingConv] <;> omega
  | .mk _ (.TemplateSpecialization true q) => by
    simpa only [Visit, if_true] using uniform_depthChecked (uniform_printQualType q)
  | .mk _ (.TemplateSpecialization false q) => by
    refine ⟨?_, fun f => ?_⟩ <;>
      simp [Visit, Outcome.shift, Outcome.Balanced, Formatter.empty]
  | .mk _ (.Decltype q) => by
    simpa only [Visit] using uniform_depthChecked (uniform_printQualType q)
  | .mk _ (.TypeOfExpr q) => by
    simpa only [Visit] using uniform_depthChecked (uniform_printQualType q)
  | .mk _ (.InjectedClassName (some decl) _) => by
    refine ⟨?_, fun f => ?_⟩ <;>
      simp [Visit, Outcome.shift, Outcome.Balanced, Formatter.empty,
        Formatter.ctor, Formatter.end_ctor, Formatter.lparen, Formatter.rparen,
        Formatter.text, Formatter.nbsp, Formatter.line, printGlobalName]
  | .mk _ (.InjectedClassName none q) => by
    simpa only [Visit] using uniform_depthChecked (uniform_printQualType q)
  | .mk _ (.MemberPointer decl q) => by
    obtain ⟨o, hb, h0, ho⟩ := (uniform_printQualType q).exists_outcome
    refine ⟨?_, fun f => ?_⟩ <;>
    · simp only [Visit, depthChecked_eq (uniform_printQualType q), ho]
      rcases o with ⟨out, d⟩ | ⟨out, d⟩ | ⟨out, d⟩ | ⟨out, d⟩ | ⟨out, d⟩ <;>
        simp_all [Outcome.shift, Outcome.Balanced, Outcome.bind, Formatter.empty,
          Formatter.ctor, Formatter.end_ctor, Formatter.lparen, Formatter.rparen,
          Formatter.text, Formatter.nbsp, Formatter.line, Formatter.num,
          Formatter.begin_list, Formatter.end_list, Formatter.cons,
          printGlobalName, printCallingConv] <;> omega
  | .mk _ (.Unhandled name) => by
    refine ⟨?_, fun f => ?_⟩ <;>
      simp [Visit, Outcome.shift, Outcome.Balanced, Formatter.empty]

theorem uniform_printParamTypes : ∀ params : List QualType, Uniform (printParamTypes params)
  | [] => by
    refine ⟨?_, fun f => ?_⟩ <;>
      simp [printParamTypes, Outcome.shift, Outcome.Balanced, Formatter.empty]
  | i :: rest => by
    obtain ⟨o, hb, h0, ho⟩ := (uniform_printQualType i).exists_outcome
    obtain ⟨o2, hb2, h02, ho2⟩ := (uniform_printParamTypes rest).exists_outcome
    refine ⟨?_, fun f => ?_⟩ <;>
    · simp only [printParamTypes, ho]
      rcases o with ⟨out, d⟩ | ⟨out, d⟩ | ⟨out, d⟩ | ⟨out, d⟩ | ⟨out, d⟩ <;>
      rcases o2 with ⟨out2, d2⟩ | ⟨out2, d2⟩ | ⟨out2, d2⟩ | ⟨out2, d2⟩ |
        ⟨out2, d2⟩ <;>
        simp_all [Outcome.shift, Outcome.Balanced, Outcome.bind, Formatter.empty,
          Formatter.ctor, Formatter.end_ctor, Formatter.lparen, Formatter.rparen,
          Formatter.text, Formatter.nbsp, Formatter.line, Formatter.num,
          Formatter.begin_list, Formatter.end_list, Formatter.cons,
          printGlobalName, printCallingConv] <;> omega

end

/-! ## Consequences of uniformity -/

theorem uniform_printType (type : ClangType) : Uniform (ClangPrinter.printType type) :=
  uniform_depthChecked (uniform_Visit type)

theorem uniform_ClangPrinter_printQualType (qt : QualType) :
    Uniform (ClangPrinter.printQualType qt) :=
  uniform_depthChecked (uniform_printQualType qt)

/-- The assertion of `ClangPrinter::printType` never fires: the method behaves as the
visitor dispatch it wraps. -/
theorem printType_eq_Visit (type : ClangType) (print : Formatter) :
    ClangPrinter.printType type print = Visit type print :=
  depthChecked_eq (uniform_Visit type) print

/-- The assertion of `ClangPrinter::printQualType` never fires: the method behaves as
the free function it wraps. -/
theorem printQualType_eq (qt : QualType) (print : Formatter) :
    ClangPrinter.printQualType qt print = printQualType qt print :=
  depthChecked_eq (uniform_printQualType qt) print

theorem emitted_congr {m body : Formatter → Outcome} (h : ∀ print, body print = m print) :
    emitted body = emitted m := by
  simp only [emitted, h]

theorem lower_eq (type : ClangType) : lower type = emitted (Visit type) :=
  emitted_congr (printType_eq_Visit type)

theorem lower_qualified_eq (qt : QualType) : lower_qualified qt = emitted (printQualType qt) :=
  emitted_congr (printQualType_eq qt)

/-- A uniform call that emits `ts` on the empty formatter returns on every formatter,
appending `ts` and restoring the depth. -/
theorem Uniform.run_of_emitted {m : Formatter → Outcome} (h : Uniform m) {ts : List Tok}
    (hts : emitted m = some ts) (print : Formatter) :
    m print = .ok ⟨print.out ++ ts, print.depth⟩ := by
  obtain ⟨o, hb, h0, ho⟩ := h.exists_outcome
  rcases o with ⟨out, d⟩ | ⟨out, d⟩ | ⟨out, d⟩ | ⟨out, d⟩ | ⟨out, d⟩ <;>
    simp_all [emitted, Outcome.shift, Outcome.Balanced]

/-- The text of a call that prints a component between fixed tokens. -/
theorem emitted_wrapped {m body : Formatter → Outcome} (hm : Uniform m) (a b : List Tok)
    (n : Int)
    (hbody : ∀ print, body print =
      (m ⟨print.out ++ a, print.depth + n⟩).bind fun after =>
        .ok ⟨after.out ++ b, after.depth - n⟩) :
    emitted body = (emitted m).map fun ts => a ++ ts ++ b := by
  obtain ⟨o, hb, h0, ho⟩ := hm.exists_outcome
  simp only [emitted, hbody, ho]
  rcases o with ⟨out, d⟩ | ⟨out, d⟩ | ⟨out, d⟩ | ⟨out, d⟩ | ⟨out, d⟩ <;>
    simp_all [Outcome.shift, Outcome.bind, Formatter.empty]

/-- The qualifier wrapping of `printQualType` in terms of emitted text. -/
theorem lower_qualified_some (p : ClangType) (c v : Bool) :
    lower_qualified (.mk (some p) c v) =
      if c then
        (lower p).map (app (if v || p.canonicalVolatile then "Qconst_volatile" else "Qconst"))
      else if v then (lower p).map (app "Qmut_volatile")
      else lower p := by
  rw [lower_qualified_eq]
  by_cases hc : c = true
  · by_cases hv : (v || p.canonicalVolatile) = true
    · simp only [hc, hv, if_true]
      refine emitted_wrapped (uniform_printType p) _ [Tok.rparen] 1 (fun print => ?_)
      simp only [printQualType, QualType.isLocalConstQualified, QualType.isVolatileQualified,
        hc, hv, if_true, ClangPrinter.printType]
      simp [Formatter.ctor, Formatter.end_ctor, Formatter.lparen, Formatter.rparen,
        Formatter.text, Formatter.nbsp]
    · simp only [hc, hv, if_true]
      refine emitted_wrapped (uniform_printType p) _ [Tok.rparen] 1 (fun print => ?_)
      simp only [printQualType, QualType.isLocalConstQualified, QualType.isVolatileQualified,
        hc, hv, if_true, ClangPrinter.printType]
      simp [Formatter.ctor, Formatter.end_ctor, Formatter.lparen, Formatter.rparen,
        Formatter.text, Formatter.nbsp]
  · by_cases hv : v = true
    · simp only [hc, hv, if_true]
      refine emitted_wrapped (uniform_printType p) _ [Tok.rparen] 1 (fun print => ?_)
      simp only [printQualType, QualType.isLocalConstQualified,
        QualType.isLocalVolatileQualified, hc, hv, if_true, ClangPrinter.printType]
      simp [Formatter.ctor, Formatter.end_ctor, Formatter.lparen, Formatter.rparen,
        Formatter.text, Formatter.nbsp]
    · simp only [hc, hv]
      refine emitted_congr (fun print => ?_)
      simp only [printQualType, QualType.isLocalConstQualified,
        QualType.isLocalVolatileQualified, hc, hv, ClangPrinter.printType]
      simp

/-! ## Qualifier wrapping -/

/-- The row `(const, volatile) = (false, false)` of the wrapper table: no wrapper. -/
theorem lower_qualified_unqualified (p : ClangType) :
    lower_qualified (.mk (some p) false false) = lower p := by
  simp [lower_qualified_some]

/-- The row `(true, true)` of the wrapper table. -/
theorem lower_qualified_const_volatile (p : ClangType) :
    lower_qualified (.mk (some p) true true) = (lower p).map (app "Qconst_volatile") := by
  simp [lower_qualified_some]

/-- The row `(false, true)` of the wrapper table. -/
theorem lower_qualified_mut_volatile (p : ClangType) :
    lower_qualified (.mk (some p) false true) = (lower p).map (app "Qmut_volatile") := by
  simp [lower_qualified_some]

/-- The row `(true, false)` of the wrapper table, for a type node whose canonical type
is not volatile. -/
theorem lower_qualified_const (node : TypeNode) :
    lower_qualified (.mk (some (.mk false node)) true false) =
      (lower (.mk false node)).map (app "Qconst") := by
  simp [lower_qualified_some, ClangType.canonicalVolatile]

/-- C1: the wrapper table of `lower_qualified` fails in its row `(const, volatile) =
(true, false)`.  For `const vint`, where `typedef volatile int vint;`, the reference is
locally const and not locally volatile, yet `printQualType` returns normally with the
wrapper `Qconst_volatile` around the lowered `vint`, not `Qconst`. -/
theorem printQualType_const_vint_emits_Qconst_volatile :
    constVint.getTypePtrOrNull = some vintType ∧
    constVint.isLocalConstQualified = true ∧
    constVint.isLocalVolatileQualified = false ∧
    (∃ ts, lower vintType = some ts ∧
      lower_qualified constVint = some (app "Qconst_volatile" ts) ∧
      lower_qualified constVint ≠ some (app "Qconst" ts)) := by
  refine ⟨rfl, rfl, rfl, ?_⟩
  refine ⟨[.lparen, .text "@Talias", .nbsp, .text "\"vint\"", .nbsp, .lparen,
    .text "Qmut_volatile", .nbsp, .text "(Tint ", .text "W32", .text " ", .text "Signed",
    .text ")", .rparen, .rparen], ?_, ?_, ?_⟩ <;> decide

/-- C2: the wrapper is not determined by the local bits alone.  Two type nodes that
differ in nothing but the volatile bit of their canonical type, referred to with the
same local pair (const, not volatile), lower to the same text, but the reference to
the one gets `Qconst_volatile` and the reference to the other `Qconst`. -/
theorem const_wrapper_depends_on_canonical_volatile (node : TypeNode) :
    lower (.mk true node) = lower (.mk false node) ∧
    lower_qualified (.mk (some (.mk true node)) true false) =
      (lower (.mk false node)).map (app "Qconst_volatile") ∧
    lower_qualified (.mk (some (.mk false node)) true false) =
      (lower (.mk false node)).map (app "Qconst") := by
  have h : lower (.mk true node) = lower (.mk false node) := by
    rw [lower_eq, lower_eq]
    refine emitted_congr (fun print => ?_)
    cases node <;> first
      | rfl
      | (rename_i d; cases d <;> rfl)
      | (rename_i d q; cases d <;> rfl)
  refine ⟨h, ?_, ?_⟩
  · simp [lower_qualified_some, ClangType.canonicalVolatile, h]
  · simp [lower_qualified_some, ClangType.canonicalVolatile]

/-! ## Builtin integer types -/

/-- The unused method `printTypeSugar` is where the dedicated tokens are: for the
32-bit `int` it prints the single token `T_int32`. -/
theorem printTypeSugar_int32 (print : Formatter) :
    printTypeSugar ⟨.Int, 32, "int"⟩ print = print.text "T_int32" := by
  rfl

/-- C3: `VisitBuiltinType` has no fast path.  For every builtin integer type that is
not `bool` and not a character type, whatever its width (8, 16, 32, 64 and 128
included), `ClangPrinter::printType` prints the generic form
`(Tint <bitsize width> <signedness>)`, never one of the dedicated tokens. -/
theorem printType_integer_generic_form (cv : Bool) (type : BuiltinType) (print : Formatter)
    (hint : type.isIntegerType = true) (hchar : type.isAnyCharacterType = false)
    (hbool : type.kind ≠ .Bool) :
    ClangPrinter.printType (.mk cv (.Builtin type)) print =
      .ok ⟨print.out ++ [.text "(Tint ", .text (bitsize type.typeSize), .text " ",
        .text (if type.isSignedInteger then "Signed" else "Unsigned"), .text ")"],
        print.depth⟩ := by
  rw [printType_eq_Visit]
  obtain ⟨kind, size, name⟩ := type
  cases kind <;>
    simp_all [Visit, VisitBuiltinType, BuiltinType.isIntegerType,
      BuiltinType.isAnyCharacterType, BuiltinType.isFloatingPoint,
      BuiltinType.isSignedInteger, BuiltinType.isUnsignedInteger, Formatter.text]

/-- C3 at the 32-bit signed `int`: the generic form with `W32`, not `T_int32`. -/
theorem printType_integer_generic_form_int32 :
    BuiltinType.isIntegerType ⟨.Int, 32, "int"⟩ = true ∧
    BuiltinType.isAnyCharacterType ⟨.Int, 32, "int"⟩ = false ∧
    ClangPrinter.printType intType Formatter.empty =
      .ok ⟨[.text "(Tint ", .text "W32", .text " ", .text "Signed", .text ")"], 0⟩ :=
  ⟨by decide, by decide,
    printType_integer_generic_form false ⟨.Int, 32, "int"⟩ Formatter.empty
      (by decide) (by decide) (by decide)⟩

/-! ## Records -/

/-- C4: a record type lowers to `Tnamed` applied to its global name and a pointer to
an unqualified record to `Tptr (Tnamed name)`, on every formatter and whatever the
record's field list is (a field of an unsupported type included): the field list does
not occur in the result. -/
theorem printType_record (cv cv2 : Bool) (decl : NamedDecl) (fields : List QualType)
    (print : Formatter) :
    ClangPrinter.printType (.mk cv (.Record decl fields)) print =
      .ok ⟨print.out ++ app "Tnamed" (globalNameText decl), print.depth⟩ ∧
    ClangPrinter.printType
        (.mk cv2 (.Pointer (.mk (some (.mk cv (.Record decl fields))) false false))) print =
      .ok ⟨print.out ++ app "Tptr" (app "Tnamed" (globalNameText decl)), print.depth⟩ ∧
    (∀ fields2 : List QualType,
      ClangPrinter.printType (.mk cv (.Record decl fields2)) print =
        ClangPrinter.printType (.mk cv (.Record decl fields)) print) := by
  have h : ∀ (fs : List QualType) (f : Formatter),
      ClangPrinter.printType (.mk cv (.Record decl fs)) f =
        .ok ⟨f.out ++ app "Tnamed" (globalNameText decl), f.depth⟩ := by
    intro fs f
    rw [printType_eq_Visit]
    simp [Visit, app, globalNameText, printGlobalName, Formatter.ctor, Formatter.end_ctor,
      Formatter.lparen, Formatter.rparen, Formatter.text, Formatter.nbsp]
  refine ⟨h fields print, ?_, fun fields2 => by rw [h, h]⟩
  rw [printType_eq_Visit]
  simp [Visit, printQualType, QualType.isLocalConstQualified,
    QualType.isLocalVolatileQualified, depthChecked, printGlobalName, globalNameText,
    Outcome.bind, app, Formatter.ctor, Formatter.end_ctor, Formatter.lparen,
    Formatter.rparen, Formatter.text, Formatter.nbsp]

/-! ## When printing aborts -/

theorem isFatal_VisitBuiltinType (type : BuiltinType) (print : Formatter) :
    (VisitBuiltinType type print).isFatal = !supportedBuiltin type := by
  obtain ⟨kind, size, name⟩ := type
  cases kind <;> rfl

theorem isOk_VisitBuiltinType (type : BuiltinType) (print : Formatter) :
    (VisitBuiltinType type print).isOk = supportedBuiltin type := by
  obtain ⟨kind, size, name⟩ := type
  cases kind <;> rfl

theorem Uniform.isFatal_eq {m : Formatter → Outcome} (h : Uniform m) (print : Formatter) :
    (m print).isFatal = (m Formatter.empty).isFatal := by
  obtain ⟨o, hb, h0, ho⟩ := h.exists_outcome
  rw [ho, h0]
  cases o <;> rfl

theorem Uniform.isOk_eq_empty {m : Formatter → Outcome} (h : Uniform m) (print : Formatter) :
    (m print).isOk = (m Formatter.empty).isOk := by
  obtain ⟨o, hb, h0, ho⟩ := h.exists_outcome
  rw [ho, h0]
  cases o <;> rfl

mutual

theorem outcome_printQualType : ∀ qt : QualType, resolvedQual qt = true →
    (printQualType qt Formatter.empty).isFatal = reachesUnsupportedQual qt ∧
    (printQualType qt Formatter.empty).isOk = !reachesUnsupportedQual qt
  | .mk none c v, _ => by
    simp [printQualType, reachesUnsupportedQual, Outcome.isFatal, Outcome.isOk]
  | .mk (some p) c v, hres => by
    obtain ⟨o, hb, h0, ho⟩ := (uniform_Visit p).exists_outcome
    have ih := outcome_Visit p (by simpa only [resolvedQual] using hres)
    rw [h0] at ih
    simp only [printQualType, reachesUnsupportedQual, depthChecked_eq (uniform_Visit p), ho]
    rcases o with ⟨out, d⟩ | ⟨out, d⟩ | ⟨out, d⟩ | ⟨out, d⟩ | ⟨out, d⟩ <;>
    split_ifs <;>
      simp_all [Outcome.shift, Outcome.Balanced, Outcome.bind, Outcome.isFatal,
          Outcome.isOk, Formatter.empty]

theorem outcome_Visit : ∀ type : ClangType, resolved type = true →
    (Visit type Formatter.empty).isFatal = reachesUnsupported type ∧
    (Visit type Formatter.empty).isOk = !reachesUnsupported type
  | .mk _ (.Builtin type), _ => by
    simp only [Visit, reachesUnsupported, isFatal_VisitBuiltinType, isOk_VisitBuiltinType,
      Bool.not_not, and_self]
  | .mk _ (.Attributed q), hres => by
    simpa only [Visit, reachesUnsupported, depthChecked_eq (uniform_printQualType q)]
      using outcome_printQualType q (by simpa only [resolved] using hres)
  | .mk _ (.Deduced q), hres => by
    simpa only [Visit, reachesUnsupported, depthChecked_eq (uniform_printQualType q)]
      using outcome_printQualType q (by simpa only [resolved] using hres)
  | .mk _ (.TemplateTypeParm (some name)), _ => by
    simp [Visit, reachesUnsupported, Outcome.isFatal, Outcome.isOk]
  | .mk _ (.TemplateTypeParm none), hres => by
    simp [resolved] at hres
  | .mk _ (.Enum decl _ q), hres => by
    obtain ⟨o, hb, h0, ho⟩ := (uniform_printQualType q).exists_outcome
    have ih := outcome_printQualType q (by simpa only [resolved] using hres)
    rw [h0] at ih
    simp only [Visit, reachesUnsupported, depthChecked_eq (uniform_printQualType q), ho]
    rcases o with ⟨out, d⟩ | ⟨out, d⟩ | ⟨out, d⟩ | ⟨out, d⟩ | ⟨out, d⟩ <;>
      simp_all [Outcome.shift, Outcome.Balanced, Outcome.bind, Outcome.isFatal,
          Outcome.isOk, Formatter.empty]
  | .mk _ (.Record decl _), _ => by
    simp [Visit, reachesUnsupported, Outcome.isFatal, Outcome.isOk]
  | .mk _ (.Paren q), hres => by
    simpa only [Visit, reachesUnsupported, depthChecked_eq (uniform_printQualType q)]
      using outcome_printQualType q (by simpa only [resolved] using hres)
  | .mk _ (.LValueReference q), hres => by
    obtain ⟨o, hb, h0, ho⟩ := (uniform_printQualType q).exists_outcome
    have ih := outcome_printQualType q (by simpa only [resolved] using hres)
    rw [h0] at ih
    simp only [Visit, reachesUnsupported, ho]
    rcases o with ⟨out, d⟩ | ⟨out, d⟩ | ⟨out, d⟩ | ⟨out, d⟩ | ⟨out, d⟩ <;>
      simp_all [Outcome.shift, Outcome.Balanced, Outcome.bind, Outcome.isFatal,
          Outcome.isOk, Formatter.empty]
  | .mk _ (.RValueReference q), hres => by
    obtain ⟨o, hb, h0, ho⟩ := (uniform_printQualType q).exists_outcome
    have ih := outcome_printQualType q (by simpa only [resolved] using hres)
    rw [h0] at ih
    simp only [Visit, reachesUnsupported, ho]
    rcases o with ⟨out, d⟩ | ⟨out, d⟩ | ⟨out, d⟩ | ⟨out, d⟩ | ⟨out, d⟩ <;>
      simp_all [Outcome.shift, Outcome.Balanced, Outcome.bind, Outcome.isFatal,
          Outcome.isOk, Formatter.empty]
  | .mk _ (.Pointer q), hres => by
    obtain ⟨o, hb, h0, ho⟩ := (uniform_printQualType q).exists_outcome
    have ih := outcome_printQualType q (by simpa only [resolved] using hres)
    rw [h0] at ih
    simp only [Visit, reachesUnsupported, ho]
    rcases o with ⟨out, d⟩ | ⟨out, d⟩ | ⟨out, d⟩ | ⟨out, d⟩ | ⟨out, d⟩ <;>
      simp_all [Outcome.shift, Outcome.Balanced, Outcome.bind, Outcome.isFatal,
          Outcome.isOk, Formatter.empty]
  | .mk _ (.Typedef decl q), hres => by
    obtain ⟨o, hb, h0, ho⟩ := (uniform_printQualType q).exists_outcome
    have ih := outcome_printQualType q (by simpa only [resolved] using hres)
    rw [h0] at ih
    simp only [Visit, reachesUnsupported, depthChecked_eq (uniform_printQualType q), ho]
    rcases o with ⟨out, d⟩ | ⟨out, d⟩ | ⟨out, d⟩ | ⟨out, d⟩ | ⟨out, d⟩ <;>
      simp_all [Outcome.shift, Outcome.Balanced, Outcome.bind, Outcome.isFatal,
          Outcome.isOk, Formatter.empty]
  | .mk _ (.FunctionProto cc r ps), hres => by
    simp only [resolved, Bool.and_eq_true] at hres
    obtain ⟨o, hb, h0, ho⟩ := (uniform_printQualType r).exists_outcome
    obtain ⟨o2, hb2, h02, ho2⟩ := (uniform_printParamTypes ps).exists_outcome
    have ih := outcome_printQualType r hres.1
    have ih2 := outcome_printParamTypes ps hres.2
    rw [h0] at ih
    rw [h02] at ih2
    simp only [Visit, reachesUnsupported, ho]
    rcases o with ⟨out, d⟩ | ⟨out, d⟩ | ⟨out, d⟩ | ⟨out, d⟩ | ⟨out, d⟩ <;>
    rcases o2 with ⟨out2, d2⟩ | ⟨out2, d2⟩ | ⟨out2, d2⟩ | ⟨out2, d2⟩ |
      ⟨out2, d2⟩ <;>
      simp_all [Outcome.shift, Outcome.Balanced, Outcome.bind, Outcome.isFatal,
          Outcome.isOk, Formatter.empty]
  | .mk _ (.Elaborated q), hres => by
    simpa only [Visit, reachesUnsupported]
      using outcome_printQualType q (by simpa only [resolved] using hres)
  | .mk _ (.ConstantArray q size), hres => by
    obtain ⟨o, hb, h0, ho⟩ := (uniform_printQualType q).exists_outcome
    have ih := outcome_printQualType q (by simpa only [resolved] using hres)
    rw [h0] at ih
    simp only [Visit, reachesUnsupported, ho]
    rcases o with ⟨out, d⟩ | ⟨out, d⟩ | ⟨out, d⟩ | ⟨out, d⟩ | ⟨out, d⟩ <;>
      simp_all [Outcome.shift, Outcome.Balanced, Outcome.bind, Outcome.isFatal,
          Outcome.isOk, Formatter.empty]
  | .mk _ (.SubstTemplateTypeParm q), hres => by
    simpa only [Visit, reachesUnsupported]
      using outcome_printQualType q (by simpa only [resolved] using hres)
  | .mk _ (.IncompleteArray q), hres => by
    obtain ⟨o, hb, h0, ho⟩ := (uniform_printQualType q).exists_outcome
    have ih := outcome_printQualType q (by simpa only [resolved] using hres)
    rw [h0] at ih
    simp only [Visit, reachesUnsupported, ho]
    rcases o with ⟨out, d⟩ | ⟨out, d⟩ | ⟨out, d⟩ | ⟨out, d⟩ | ⟨out, d⟩ <;>
      simp_all [Outcome.shift, Outcome.Balanced, Outcome.bind, Outcome.isFatal,
          Outcome.isOk, Formatter.empty]
  | .mk _ (.Decayed q), hres => by
    obtain ⟨o, hb, h0, ho⟩ := (uniform_printQualType q).exists_outcome
    have ih := outcome_printQualType q (by simpa only [resolved] using hres)
    rw [h0] at ih
    simp only [Visit, reachesUnsupported, ho]
    rcases o with ⟨out, d⟩ | ⟨out, d⟩ | ⟨out, d⟩ | ⟨out, d⟩ | ⟨out, d⟩ <;>
      simp_all [Outcome.shift, Outcome.Balanced, Outcome.bind, Outcome.isFatal,
          Outcome.isOk, Formatter.empty]
  | .mk _ (.TemplateSpecialization true q), hres => by
    simpa [Visit, reachesUnsupported, depthChecked_eq (uniform_printQualType q)]
      using outcome_printQualType q (by simpa [resolved] using hres)
  | .mk _ (.TemplateSpecialization false q), _ => by
    simp [Visit, reachesUnsupported, Outcome.isFatal, Outcome.isOk]
  | .mk _ (.Decltype q), hres => by
    simpa only [Visit, reachesUnsupported, depthChecked_eq (uniform_printQualType q)]
      using outcome_printQualType q (by simpa only [resolved] using hres)
  | .mk _ .DependentDecltype, hres => by
    simp [resolved] at hres
  | .mk _ (.TypeOfExpr q), hres => by
    simpa only [Visit, reachesUnsupported, depthChecked_eq (uniform_printQualType q)]
      using outcome_printQualType q (by simpa only [resolved] using hres)
  | .mk _ .DependentTypeOfExpr, hres => by
    simp [resolved] at hres
  | .mk _ (.InjectedClassName (some decl) _), _ => by
    simp [Visit, reachesUnsupported, Outcome.isFatal, Outcome.isOk]
  | .mk _ (.InjectedClassName none q), hres => by
    simpa only [Visit, reachesUnsupported, depthChecked_eq (uniform_printQualType q)]
      using outcome_printQualType q (by simpa only [resolved] using hres)
  | .mk _ (.MemberPointer decl q), hres => by
    obtain ⟨o, hb, h0, ho⟩ := (uniform_printQualType q).exists_outcome
    have ih := outcome_printQualType q (by simpa only [resolved] using hres)
    rw [h0] at ih
    simp only [Visit, reachesUnsupported, depthChecked_eq (uniform_printQualType q), ho]
    rcases o with ⟨out, d⟩ | ⟨out, d⟩ | ⟨out, d⟩ | ⟨out, d⟩ | ⟨out, d⟩ <;>
      simp_all [Outcome.shift, Outcome.Balanced, Outcome.bind, Outcome.isFatal,
          Outcome.isOk, Formatter.empty]
  | .mk _ (.Unhandled name), _ => by
    simp [Visit, reachesUnsupported, Outcome.isFatal, Outcome.isOk]

theorem outcome_printParamTypes : ∀ params : List QualType, resolvedParams params = true →
    (printParamTypes params Formatter.empty).isFatal = reachesUnsupportedParams params ∧
    (printParamTypes params Formatter.empty).isOk = !reachesUnsupportedParams params
  | [], _ => by
    simp [printParamTypes, reachesUnsupportedParams, Outcome.isFatal, Outcome.isOk]
  | i :: rest, hres => by
    simp only [resolvedParams, Bool.and_eq_true] at hres
    obtain ⟨o, hb, h0, ho⟩ := (uniform_printQualType i).exists_outcome
    obtain ⟨o2, hb2, h02, ho2⟩ := (uniform_printParamTypes rest).exists_outcome
    have ih := outcome_printQualType i hres.1
    have ih2 := outcome_printParamTypes rest hres.2
    rw [h0] at ih
    rw [h02] at ih2
    simp only [printParamTypes, reachesUnsupportedParams, ho]
    rcases o with ⟨out, d⟩ | ⟨out, d⟩ | ⟨out, d⟩ | ⟨out, d⟩ | ⟨out, d⟩ <;>
    rcases o2 with ⟨out2, d2⟩ | ⟨out2, d2⟩ | ⟨out2, d2⟩ | ⟨out2, d2⟩ |
      ⟨out2, d2⟩ <;>
      simp_all [Outcome.shift, Outcome.Balanced, Outcome.bind, Outcome.isFatal,
          Outcome.isOk, Formatter.empty]

end

/-- On a type whose descent stays within resolved nodes, `printType` aborts exactly when
the descent reaches one of the spec's four unsupported constructs and returns normally
otherwise, on every formatter. -/
theorem printType_outcome_of_resolved (type : ClangType) (print : Formatter)
    (hres : resolved type = true) :
    (ClangPrinter.printType type print).isFatal = reachesUnsupported type ∧
    (ClangPrinter.printType type print).isOk = !reachesUnsupported type := by
  rw [printType_eq_Visit, (uniform_Visit type).isFatal_eq,
    (uniform_Visit type).isOk_eq_empty]
  exact outcome_Visit type hres

/-- On a qualified type whose descent stays within resolved nodes, `printQualType`
aborts exactly when the descent reaches one of the spec's four unsupported constructs
and returns normally otherwise, on every formatter. -/
theorem printQualType_outcome_of_resolved (qt : QualType) (print : Formatter)
    (hres : resolvedQual qt = true) :
    (ClangPrinter.printQualType qt print).isFatal = reachesUnsupportedQual qt ∧
    (ClangPrinter.printQualType qt print).isOk = !reachesUnsupportedQual qt := by
  rw [printQualType_eq, (uniform_printQualType qt).isFatal_eq,
    (uniform_printQualType qt).isOk_eq_empty]
  exact outcome_printQualType qt hres

/-- One round of the decltype handler on a node that is not sugared is the call of the
visitor on the same node with the same formatter, inside the two depth checks of
`cprint.printQualType` and `cprint.printType`. -/
theorem VisitStep_dependentDecltype (visit : ClangType → Formatter → Outcome) (cv : Bool)
    (print : Formatter) :
    VisitStep (printQualTypeStep visit) (.mk cv .DependentDecltype) print =
      depthChecked (depthChecked (visit (.mk cv .DependentDecltype))) print := by
  simp only [VisitStep, printQualTypeStep, QualType.isLocalConstQualified,
    QualType.isLocalVolatileQualified, Bool.false_eq_true, if_false]
  rfl

/-- One round of the typeof handler on a node that is not sugared is the call of the
visitor on the same node with the same formatter. -/
theorem VisitStep_dependentTypeOfExpr (visit : ClangType → Formatter → Outcome) (cv : Bool)
    (print : Formatter) :
    VisitStep (printQualTypeStep visit) (.mk cv .DependentTypeOfExpr) print =
      depthChecked (depthChecked (visit (.mk cv .DependentTypeOfExpr))) print := by
  simp only [VisitStep, printQualTypeStep, QualType.isLocalConstQualified,
    QualType.isLocalVolatileQualified, Bool.false_eq_true, if_false]
  rfl

/-- C5: the dichotomy of the claim (a call aborts or succeeds) fails on a decltype or
typeof node that is not sugared.  The node is none of the four unsupported constructs,
yet `printType` neither returns nor aborts: one round of the handler is the call of the
visitor on the same node with the same formatter, so the call never returns.  The
sibling handler of an unsugared template specialization aborts.  A template type
parameter without declaration neither returns nor aborts either: its handler
dereferences the null declaration. -/
theorem printType_dependent_decltype_never_returns (cv : Bool) (print : Formatter)
    (visit : ClangType → Formatter → Outcome) (q : QualType) :
    reachesUnsupported (.mk cv .DependentDecltype) = false ∧
    VisitStep (printQualTypeStep visit) (.mk cv .DependentDecltype) print =
      depthChecked (depthChecked (visit (.mk cv .DependentDecltype))) print ∧
    ClangPrinter.printType (.mk cv .DependentDecltype) print = .diverges print ∧
    (ClangPrinter.printType (.mk cv .DependentDecltype) print).isOk = false ∧
    (ClangPrinter.printType (.mk cv .DependentDecltype) print).isFatal = false ∧
    ClangPrinter.printType (.mk cv .DependentTypeOfExpr) print = .diverges print ∧
    ClangPrinter.printType (.mk cv (.TemplateSpecialization false q)) print = .fatal print ∧
    (ClangPrinter.printType (.mk cv (.TemplateTypeParm none)) print).isOk = false ∧
    (ClangPrinter.printType (.mk cv (.TemplateTypeParm none)) print).isFatal = false := by
  refine ⟨rfl, VisitStep_dependentDecltype visit cv print, ?_, ?_, ?_, ?_, ?_, ?_, ?_⟩ <;>
    rw [printType_eq_Visit] <;> rfl

/-! ## Output and depth at the end of a call -/

theorem Uniform.ok_depth {m : Formatter → Outcome} (h : Uniform m) {print after : Formatter}
    (hr : m print = .ok after) : after.depth = print.depth := by
  obtain ⟨o, hb, h0, ho⟩ := h.exists_outcome
  rw [ho] at hr
  rcases o with ⟨out, d⟩ | ⟨out, d⟩ | ⟨out, d⟩ | ⟨out, d⟩ | ⟨out, d⟩ <;>
    simp_all [Outcome.shift, Outcome.Balanced]
  rw [← hr]

theorem Uniform.ne_assertFailed {m : Formatter → Outcome} (h : Uniform m)
    (print after : Formatter) : m print ≠ .assertFailed after := by
  obtain ⟨o, hb, h0, ho⟩ := h.exists_outcome
  rw [ho]
  rcases o with ⟨out, d⟩ | ⟨out, d⟩ | ⟨out, d⟩ | ⟨out, d⟩ | ⟨out, d⟩ <;>
    simp_all [Outcome.shift, Outcome.Balanced]

/-- C7: after a normal return of `printType` or `printQualType` the depth is the depth
on entry, and the depth assertions of the two methods never fail, whatever the type:
the handlers that close with a raw right parenthesis are balanced like the others. -/
theorem depth_balanced (type : ClangType) (qt : QualType) (print after : Formatter) :
    (ClangPrinter.printType type print = .ok after → after.depth = print.depth) ∧
    (ClangPrinter.printQualType qt print = .ok after → after.depth = print.depth) ∧
    ClangPrinter.printType type print ≠ .assertFailed after ∧
    ClangPrinter.printQualType qt print ≠ .assertFailed after :=
  ⟨(uniform_printType type).ok_depth, (uniform_ClangPrinter_printQualType qt).ok_depth,
    (uniform_printType type).ne_assertFailed print after,
    (uniform_ClangPrinter_printQualType qt).ne_assertFailed print after⟩

/-- C7 at a typedef of a constant array of incomplete arrays of `const int`, printed
on the empty formatter: the call returns and the depth is the depth on entry. -/
theorem depth_balanced_rowType :
    ClangPrinter.printType rowType Formatter.empty =
      .ok (ClangPrinter.printType rowType Formatter.empty).state ∧
    (ClangPrinter.printType rowType Formatter.empty).state.depth = Formatter.empty.depth :=
  ⟨by decide,
    (depth_balanced rowType (.mk none false false) Formatter.empty
      (ClangPrinter.printType rowType Formatter.empty).state).1 (by decide)⟩

/-! ## What the handlers print -/

/-- A type that lowers to `ts` prints `ts` on every formatter and restores the depth. -/
theorem printType_of_lower {type : ClangType} {ts : List Tok} (h : lower type = some ts)
    (print : Formatter) :
    ClangPrinter.printType type print = .ok ⟨print.out ++ ts, print.depth⟩ :=
  (uniform_printType type).run_of_emitted h print

/-- A qualified type that lowers to `ts` prints `ts` on every formatter and restores
the depth. -/
theorem printQualType_of_lower_qualified {qt : QualType} {ts : List Tok}
    (h : lower_qualified qt = some ts) (print : Formatter) :
    ClangPrinter.printQualType qt print = .ok ⟨print.out ++ ts, print.depth⟩ :=
  (uniform_ClangPrinter_printQualType qt).run_of_emitted h print

/-- C8: a pointer, an lvalue reference and an rvalue reference lower to the one-argument
applications `Tptr`, `Tref` and `Trv_ref` of the lowered qualified pointee; the three
results are pairwise distinct, and a pointer to a locally const pointee keeps the
pointee's `Qconst` wrapper inside the application. -/
theorem lower_pointer_and_references (cv : Bool) (q : QualType) :
    lower (.mk cv (.Pointer q)) = (lower_qualified q).map (app "Tptr") ∧
    lower (.mk cv (.LValueReference q)) = (lower_qualified q).map (app "Tref") ∧
    lower (.mk cv (.RValueReference q)) = (lower_qualified q).map (app "Trv_ref") ∧
    (∀ ts : List Tok, app "Tptr" ts ≠ app "Tref" ts ∧ app "Tptr" ts ≠ app "Trv_ref" ts ∧
      app "Tref" ts ≠ app "Trv_ref" ts) ∧
    (∀ node : TypeNode,
      lower (.mk cv (.Pointer (.mk (some (.mk false node)) true false))) =
        (lower (.mk false node)).map fun ts => app "Tptr" (app "Qconst" ts)) := by
  have hptr : ∀ q : QualType,
      lower (.mk cv (.Pointer q)) = (lower_qualified q).map (app "Tptr") := by
    intro q
    rw [lower_eq, lower_qualified_eq]
    refine emitted_wrapped (uniform_printQualType q) _ [Tok.rparen] 1 (fun print => ?_)
    simp [Visit, Formatter.ctor, Formatter.end_ctor, Formatter.lparen, Formatter.rparen,
      Formatter.text, Formatter.nbsp]
  refine ⟨hptr q, ?_, ?_, ?_, ?_⟩
  · rw [lower_eq, lower_qualified_eq]
    refine emitted_wrapped (uniform_printQualType q) _ [Tok.rparen] 1 (fun print => ?_)
    simp [Visit, Formatter.ctor, Formatter.end_ctor, Formatter.lparen, Formatter.rparen,
      Formatter.text, Formatter.nbsp]
  · rw [lower_eq, lower_qualified_eq]
    refine emitted_wrapped (uniform_printQualType q) _ [Tok.rparen] 1 (fun print => ?_)
    simp [Visit, Formatter.ctor, Formatter.end_ctor, Formatter.lparen, Formatter.rparen,
      Formatter.text, Formatter.nbsp]
  · intro ts
    simp [app]
  · intro node
    rw [hptr, lower_qualified_const, Option.map_map]
    rfl

/-- C9: an incomplete array with element type `q` and a decayed type with pointee type
`q` lower to the same text, `Qconst (Tptr (lower_qualified q))` (the `Qconst`
application is opened after a line break), whatever the canonical qualifiers of the
two nodes. -/
theorem lower_incomplete_array_and_decayed (cv cv2 : Bool) (q : QualType) :
    lower (.mk cv (.IncompleteArray q)) =
      (lower_qualified q).map (fun ts => Tok.line :: app "Qconst" (app "Tptr" ts)) ∧
    lower (.mk cv2 (.Decayed q)) =
      (lower_qualified q).map (fun ts => Tok.line :: app "Qconst" (app "Tptr" ts)) ∧
    lower (.mk cv (.IncompleteArray q)) = lower (.mk cv2 (.Decayed q)) := by
  have h1 : lower (.mk cv (.IncompleteArray q)) =
      (lower_qualified q).map (fun ts => Tok.line :: app "Qconst" (app "Tptr" ts)) := by
    rw [lower_eq, lower_qualified_eq]
    refine (emitted_wrapped (uniform_printQualType q)
      [Tok.line, Tok.lparen, Tok.text "Qconst", Tok.nbsp, Tok.lparen, Tok.text "Tptr",
        Tok.nbsp] [Tok.rparen, Tok.rparen] 2 (fun print => ?_)).trans ?_
    · simp [Visit, Formatter.ctor, Formatter.line, Formatter.lparen, Formatter.rparen,
        Formatter.text, Formatter.nbsp, add_assoc, sub_sub]
    · congr 1
      funext ts
      simp [app]
  have h2 : lower (.mk cv2 (.Decayed q)) =
      (lower_qualified q).map (fun ts => Tok.line :: app "Qconst" (app "Tptr" ts)) := by
    rw [lower_eq, lower_qualified_eq]
    refine (emitted_wrapped (uniform_printQualType q)
      [Tok.line, Tok.lparen, Tok.text "Qconst", Tok.nbsp, Tok.lparen, Tok.text "Tptr",
        Tok.nbsp] [Tok.rparen, Tok.rparen] 2 (fun print => ?_)).trans ?_
    · simp [Visit, Formatter.ctor, Formatter.line, Formatter.lparen, Formatter.rparen,
        Formatter.text, Formatter.nbsp, add_assoc, sub_sub]
    · congr 1
      funext ts
      simp [app]
  exact ⟨h1, h2, h1.trans h2.symm⟩

/-- C10: an enum type and a typedef type lower to the two-argument application
`@Talias` of the global name of the declaration and the lowered qualified type `u`, in
that order, where `u` is the promotion type of the enum's canonical declaration (the
written underlying type `integerType` plays no part) or the underlying type of the
typedef's canonical declaration. -/
theorem lower_enum_and_typedef (cv : Bool) (decl : NamedDecl)
    (integerType u : QualType) :
    lower (.mk cv (.Enum decl integerType u)) =
      (lower_qualified u).map
        (fun ts => app "@Talias" (globalNameText decl ++ [Tok.nbsp] ++ ts)) ∧
    lower (.mk cv (.Typedef decl u)) =
      (lower_qualified u).map
        (fun ts => app "@Talias" (globalNameText decl ++ [Tok.nbsp] ++ ts)) := by
  constructor
  · rw [lower_eq]
    refine (emitted_wrapped (uniform_ClangPrinter_printQualType u)
      ([Tok.lparen, Tok.text "@Talias", Tok.nbsp] ++ globalNameText decl ++ [Tok.nbsp])
      [Tok.rparen] 1 (fun print => ?_)).trans ?_
    · simp [Visit, ClangPrinter.printQualType, printGlobalName, globalNameText,
        Formatter.ctor, Formatter.end_ctor, Formatter.lparen, Formatter.rparen,
        Formatter.text, Formatter.nbsp]
    · simp [lower_qualified, app]
  · rw [lower_eq]
    refine (emitted_wrapped (uniform_ClangPrinter_printQualType u)
      ([Tok.lparen, Tok.text "@Talias", Tok.nbsp] ++ globalNameText decl ++ [Tok.nbsp])
      [Tok.rparen] 1 (fun print => ?_)).trans ?_
    · simp [Visit, ClangPrinter.printQualType, printGlobalName, globalNameText,
        Formatter.ctor, Formatter.end_ctor, Formatter.lparen, Formatter.rparen,
        Formatter.text, Formatter.nbsp]
    · simp [lower_qualified, app]

/-! ## Transparent wrappers -/

/-- C11: a parenthesized, elaborated, substituted template parameter, decltype,
typeof(expr), attributed or deduced type around the qualified type `q` lowers to exactly
`lower_qualified q`: the wrapper adds no constructor and the qualifiers of `q` are
kept, so an attributed type around a locally const `T` lowers to `Qconst (lower T)`.
The equation also holds for a decltype or typeof node that is not sugared, whose
`desugar()` is the node itself without qualifiers. -/
theorem lower_transparent_wrappers (cv : Bool) (q : QualType) :
    lower (.mk cv (.Paren q)) = lower_qualified q ∧
    lower (.mk cv (.Elaborated q)) = lower_qualified q ∧
    lower (.mk cv (.SubstTemplateTypeParm q)) = lower_qualified q ∧
    lower (.mk cv (.Decltype q)) = lower_qualified q ∧
    lower (.mk cv (.TypeOfExpr q)) = lower_qualified q ∧
    lower (.mk cv (.Attributed q)) = lower_qualified q ∧
    lower (.mk cv (.Deduced q)) = lower_qualified q ∧
    (∀ node : TypeNode,
      lower (.mk cv (.Attributed (.mk (some (.mk false node)) true false))) =
        (lower (.mk false node)).map (app "Qconst")) ∧
    lower (.mk cv .DependentDecltype) =
      lower_qualified (.mk (some (.mk cv .DependentDecltype)) false false) ∧
    lower (.mk cv .DependentTypeOfExpr) =
      lower_qualified (.mk (some (.mk cv .DependentTypeOfExpr)) false false) := by
  have hchecked : ∀ t : ClangType,
      (∀ print, Visit t print = depthChecked (printQualType q) print) →
      lower t = lower_qualified q := by
    intro t h
    rw [lower_eq]
    exact emitted_congr h
  have hfree : ∀ t : ClangType, (∀ print, Visit t print = printQualType q print) →
      lower t = lower_qualified q := by
    intro t h
    rw [lower_eq, lower_qualified_eq]
    exact emitted_congr h
  have hattr : ∀ q2 : QualType, lower (.mk cv (.Attributed q2)) = lower_qualified q2 := by
    intro q2
    rw [lower_eq]
    exact emitted_congr (fun print => by simp only [Visit, ClangPrinter.printQualType])
  refine ⟨hchecked _ (fun _ => by simp only [Visit]), hfree _ (fun _ => by simp only [Visit]),
    hfree _ (fun _ => by simp only [Visit]), hchecked _ (fun _ => by simp only [Visit]),
    hchecked _ (fun _ => by simp only [Visit]), hattr q,
    hchecked _ (fun _ => by simp only [Visit]), fun node => ?_,
    (lower_qualified_unqualified _).symm, (lower_qualified_unqualified _).symm⟩
  rw [hattr, lower_qualified_const]

/-! ## Function prototypes -/

/-- The parameter loop prints the lowered parameter types in order, each followed by
the list separator. -/
theorem printParamTypes_of_lowered {params : List QualType} {texts : List (List Tok)}
    (h : List.Forall₂ (fun p t => lower_qualified p = some t) params texts) :
    ∀ print : Formatter,
      printParamTypes params print = .ok ⟨print.out ++ listElems texts, print.depth⟩ := by
  induction h with
  | nil =>
    intro print
    simp [printParamTypes, listElems]
  | cons hp _ ih =>
    intro print
    rw [lower_qualified_eq] at hp
    simp [printParamTypes, (uniform_printQualType _).run_of_emitted hp, Outcome.bind, ih,
      Formatter.cons, Formatter.text, listElems]

/-- C12: when the return type lowers to `tr` and the parameter types `p1 .. pn`, taken
in order, lower to `t1 .. tn`, the function prototype lowers to the application of
`@Tfunction` (opened after a line break) to the calling-convention token, `tr` and the
list `[t1, .., tn]`: one element for each parameter, in declaration order. -/
theorem lower_function_proto (cv : Bool) (cc : CallingConv) (r : QualType)
    (params : List QualType) (tr : List Tok) (texts : List (List Tok))
    (hr : lower_qualified r = some tr)
    (hps : List.Forall₂ (fun p t => lower_qualified p = some t) params texts) :
    texts.length = params.length ∧
    lower (.mk cv (.FunctionProto cc r params)) =
      some (Tok.line :: app "@Tfunction"
        ([Tok.text cc.token, Tok.nbsp] ++ tr ++ [Tok.nbsp] ++ listText texts)) := by
  refine ⟨hps.length_eq.symm, ?_⟩
  rw [lower_qualified_eq] at hr
  rw [lower_eq]
  simp [emitted, Visit, (uniform_printQualType r).run_of_emitted hr,
    printParamTypes_of_lowered hps, Outcome.bind, Formatter.empty, Formatter.ctor,
    Formatter.line, Formatter.lparen, Formatter.rparen, Formatter.text, Formatter.nbsp,
    Formatter.begin_list, Formatter.end_list, Formatter.end_ctor, printCallingConv, app,
    listText]

/-- C12 at `int (const int, int)`: the list has the two lowered parameter types, the
const one first. -/
theorem lower_function_proto_binary :
    lower_qualified (.mk (some intType) false false) = some intText ∧
    lower_qualified (.mk (some intType) true false) = some (app "Qconst" intText) ∧
    [app "Qconst" intText, intText].length = 2 ∧
    lower binaryProto =
      some (Tok.line :: app "@Tfunction"
        ([Tok.text ccC.token, Tok.nbsp] ++ intText ++ [Tok.nbsp] ++
          listText [app "Qconst" intText, intText])) :=
  ⟨by decide, by decide,
    (lower_function_proto false ccC (.mk (some intType) false false)
      [.mk (some intType) true false, .mk (some intType) false false] intText
      [app "Qconst" intText, intText] (by decide)
      (List.Forall₂.cons (by decide) (List.Forall₂.cons (by decide) List.Forall₂.nil))).1,
    (lower_function_proto false ccC (.mk (some intType) false false)
      [.mk (some intType) true false, .mk (some intType) false false] intText
      [app "Qconst" intText, intText] (by decide)
      (List.Forall₂.cons (by decide) (List.Forall₂.cons (by decide) List.Forall₂.nil))).2⟩

/-! ## Constant arrays -/

/-- C13: a constant array of `n` elements of type `q` lowers, whenever `q` does, to
the application of `Tarray` (opened after a line break) to the lowered `q` and the
literal `getLimitedValue n`; the literal is `n` when `n` fits 64 bits and lies within
the 64-bit range in every case, and the array aborts only if `q` does. -/
theorem lower_constant_array (cv : Bool) (q : QualType) (n : Nat) (print : Formatter) :
    lower (.mk cv (.ConstantArray q n)) =
      (lower_qualified q).map
        (fun ts => Tok.line :: app "Tarray" (ts ++ [Tok.nbsp, Tok.num (getLimitedValue n)])) ∧
    (n ≤ 2 ^ 64 - 1 → getLimitedValue n = n) ∧
    getLimitedValue n ≤ 2 ^ 64 - 1 ∧
    (ClangPrinter.printType (.mk cv (.ConstantArray q n)) print).isFatal =
      (ClangPrinter.printQualType q print).isFatal := by
  refine ⟨?_, ?_, ?_, ?_⟩
  · rw [lower_eq, lower_qualified_eq]
    refine (emitted_wrapped (uniform_printQualType q)
      [Tok.line, Tok.lparen, Tok.text "Tarray", Tok.nbsp]
      [Tok.nbsp, Tok.num (getLimitedValue n), Tok.rparen] 1 (fun print => ?_)).trans ?_
    · simp [Visit, Formatter.ctor, Formatter.line, Formatter.lparen, Formatter.rparen,
        Formatter.text, Formatter.nbsp, Formatter.num]
    · congr 1
      funext ts
      simp [app]
  · intro h
    unfold getLimitedValue
    rw [if_pos (by omega)]
  · unfold getLimitedValue
    split <;> omega
  · rw [printType_eq_Visit, printQualType_eq]
    obtain ⟨o, hb, h0, ho⟩ := (uniform_printQualType q).exists_outcome
    simp only [Visit, ho]
    rcases o with ⟨out, d⟩ | ⟨out, d⟩ | ⟨out, d⟩ | ⟨out, d⟩ | ⟨out, d⟩ <;>
      simp [Outcome.shift, Outcome.bind, Outcome.isFatal]

/-- C13 at `int[4]` and at an `int` array of `2 ^ 64 + 5` elements: the first count is
printed as it is, the second is cut down to `2 ^ 64 - 1`. -/
theorem lower_constant_array_counts :
    getLimitedValue 4 = 4 ∧
    lower (.mk false (.ConstantArray (.mk (some intType) false false) (2 ^ 64 + 5))) =
      some (Tok.line :: app "Tarray" (intText ++ [Tok.nbsp, Tok.num (2 ^ 64 - 1)])) :=
  ⟨(lower_constant_array false (.mk (some intType) false false) 4 Formatter.empty).2.1
      (by decide),
    (lower_constant_array false (.mk (some intType) false false) (2 ^ 64 + 5)
      Formatter.empty).1.trans (by decide)⟩

/-! ## Builtin types -/

/-- C14: `bool`, `void` and `nullptr` print the literals `Tbool`, `Tvoid` and
`Tnullptr`; a character type prints `(Tchar <bitsize width> <signedness>)` and not an
integer form, although it also is an integer type; a floating type prints
`(Tfloat <bitsize width>)` without a signedness; a sizeless builtin prints the
application of `Tarch None` to its spelling in double quotes. -/
theorem printType_builtin_dispatch (cv : Bool) (type : BuiltinType) (print : Formatter) :
    (type.kind = .Bool →
      ClangPrinter.printType (.mk cv (.Builtin type)) print = .ok (print.text "Tbool")) ∧
    (type.kind = .Void →
      ClangPrinter.printType (.mk cv (.Builtin type)) print = .ok (print.text "Tvoid")) ∧
    (type.kind = .NullPtr →
      ClangPrinter.printType (.mk cv (.Builtin type)) print = .ok (print.text "Tnullptr")) ∧
    (type.isAnyCharacterType = true →
      type.isIntegerType = true ∧
      ClangPrinter.printType (.mk cv (.Builtin type)) print =
        .ok ⟨print.out ++ [.text "(Tchar ", .text (bitsize type.typeSize), .text " ",
          .text (if type.isSignedInteger then "Signed" else "Unsigned"), .text ")"],
          print.depth⟩) ∧
    (type.isFloatingPoint = true →
      ClangPrinter.printType (.mk cv (.Builtin type)) print =
        .ok ⟨print.out ++ [.text "(Tfloat ", .text (bitsize type.typeSize), .text ")"],
          print.depth⟩) ∧
    (type.isSizelessBuiltinType = true →
      ClangPrinter.printType (.mk cv (.Builtin type)) print =
        .ok ⟨print.out ++ [.lparen, .text "Tarch None \"", .text type.name, .text "\"",
          .rparen], print.depth⟩) := by
  rw [printType_eq_Visit]
  obtain ⟨kind, size, name⟩ := type
  cases kind <;>
    simp [Visit, VisitBuiltinType, BuiltinType.isIntegerType,
      BuiltinType.isAnyCharacterType, BuiltinType.isFloatingPoint,
      BuiltinType.isSignedInteger, BuiltinType.isUnsignedInteger,
      BuiltinType.isSizelessBuiltinType, Formatter.text, Formatter.lparen,
      Formatter.rparen]

/-- C14 at the signed 8-bit `char`: it is an integer type and prints
`(Tchar W8 Signed)`. -/
theorem printType_builtin_dispatch_char :
    charBuiltin.isAnyCharacterType = true ∧
    charBuiltin.isIntegerType = true ∧
    ClangPrinter.printType (.mk false (.Builtin charBuiltin)) Formatter.empty =
      .ok ⟨[.text "(Tchar ", .text "W8", .text " ", .text "Signed", .text ")"], 0⟩ :=
  ⟨by decide,
    ((printType_builtin_dispatch false charBuiltin Formatter.empty).2.2.2.1 (by decide)).1,
    ((printType_builtin_dispatch false charBuiltin Formatter.empty).2.2.2.1 (by decide)).2⟩

/-! ## The functions `bitsize` and `printQualifier` -/

/-- C15: `bitsize` maps 8, 16, 32, 64 and 128 to `W8`, `W16`, `W32`, `W64` and `W128`
and every other number (24, 0 and 256 among them) to `unknown_bit_size`; being a
function on all numbers it has a value everywhere. -/
theorem bitsize_table (n : Nat) :
    bitsize 8 = "W8" ∧ bitsize 16 = "W16" ∧ bitsize 32 = "W32" ∧ bitsize 64 = "W64" ∧
    bitsize 128 = "W128" ∧
    (n ≠ 8 → n ≠ 16 → n ≠ 32 → n ≠ 64 → n ≠ 128 → bitsize n = "unknown_bit_size") ∧
    bitsize 24 = "unknown_bit_size" ∧ bitsize 0 = "unknown_bit_size" ∧
    bitsize 256 = "unknown_bit_size" := by
  refine ⟨rfl, rfl, rfl, rfl, rfl, ?_, rfl, rfl, rfl⟩
  intro h8 h16 h32 h64 h128
  unfold bitsize
  split <;> first | rfl | contradiction

/-- C15 at the width 24. -/
theorem bitsize_table_24 : bitsize 24 = "unknown_bit_size" :=
  (bitsize_table 24).2.2.2.2.2.1 (by decide) (by decide) (by decide) (by decide) (by decide)

/-- C16: `printQualifier(is_const, is_volatile)` prints `QM`, `QC`, `QV` and `QCV`
for `(false, false)`, `(true, false)`, `(false, true)` and `(true, true)`; the four
tokens are pairwise distinct and none of them is one of the wrapper names `Qconst`,
`Qmut_volatile`, `Qconst_volatile` of `printQualType`. -/
theorem printQualifier_table (print : Formatter) (c v : Bool) :
    ClangPrinter.printQualifier false false print = print.text "QM" ∧
    ClangPrinter.printQualifier true false print = print.text "QC" ∧
    ClangPrinter.printQualifier false true print = print.text "QV" ∧
    ClangPrinter.printQualifier true true print = print.text "QCV" ∧
    List.Pairwise (fun a b => a ≠ b)
      [ClangPrinter.printQualifier false false print,
        ClangPrinter.printQualifier true false print,
        ClangPrinter.printQualifier false true print,
        ClangPrinter.printQualifier true true print] ∧
    ClangPrinter.printQualifier c v print ∉
      [print.text "Qconst", print.text "Qmut_volatile", print.text "Qconst_volatile"] := by
  refine ⟨rfl, rfl, rfl, rfl, ?_, ?_⟩
  · simp [ClangPrinter.printQualifier, Formatter.text]
  · cases c <;> cases v <;> simp [ClangPrinter.printQualifier, Formatter.text]

/-! ## Module flags and buckets -/

/-- C17: `set_template` sets `in_template` and keeps `in_specialization`,
`set_specialization` sets `in_specialization` and keeps `in_template`; neither clears a
bit; `none` holds exactly when both bits are false, and is false after an operation
followed by any further operations. -/
theorem flags_monotone (flags : Module.Flags) (op : Module.Flags.Op)
    (ops : List Module.Flags.Op) :
    flags.set_template.in_template = true ∧
    flags.set_template.in_specialization = flags.in_specialization ∧
    flags.set_specialization.in_specialization = true ∧
    flags.set_specialization.in_template = flags.in_template ∧
    flags.in_template ≤ (flags.apply op).in_template ∧
    flags.in_specialization ≤ (flags.apply op).in_specialization ∧
    (flags.none = true ↔ flags.in_template = false ∧ flags.in_specialization = false) ∧
    flags.set_template.none = false ∧
    flags.set_specialization.none = false ∧
    (ops.foldl Module.Flags.apply (flags.apply op)).none = false := by
  have hstep : ∀ (f : Module.Flags) (o : Module.Flags.Op),
      f.none = false → (f.apply o).none = false := by
    intro f o
    obtain ⟨t, sp⟩ := f
    cases o <;> cases t <;> cases sp <;> decide
  have hfold : ∀ (l : List Module.Flags.Op) (f : Module.Flags),
      f.none = false → (l.foldl Module.Flags.apply f).none = false := by
    intro l
    induction l with
    | nil => exact fun _ h => h
    | cons o rest ih => exact fun f h => ih _ (hstep f o h)
  obtain ⟨t, sp⟩ := flags
  refine ⟨rfl, rfl, rfl, rfl, ?_, ?_, ?_, ?_, ?_, hfold ops _ ?_⟩
  · cases op <;> cases t <;> cases sp <;> decide
  · cases op <;> cases t <;> cases sp <;> decide
  · cases t <;> cases sp <;> decide
  · cases sp <;> rfl
  · cases t <;> rfl
  · cases op <;> cases t <;> cases sp <;> rfl

/-- The four sequences and the assertions after a sequence of calls. -/
theorem Module.run_buckets (calls : List Module.Call) :
    ∀ m : Module,
      (m.run calls).declarations = m.declarations ++ Module.presented false false calls ∧
      (m.run calls).template_declarations =
        m.template_declarations ++ Module.presented false true calls ∧
      (m.run calls).definitions = m.definitions ++ Module.presented true false calls ∧
      (m.run calls).template_definitions =
        m.template_definitions ++ Module.presented true true calls ∧
      (m.run calls).asserts = m.asserts := by
  induction calls with
  | nil =>
    intro m
    simp [Module.run, Module.presented]
  | cons c rest ih =>
    intro m
    have h := ih (m.call c)
    simp only [Module.run, List.foldl_cons] at h ⊢
    obtain ⟨h1, h2, h3, h4, h5⟩ := h
    rw [h1, h2, h3, h4, h5]
    rcases c with ⟨decl, ⟨t, sp⟩⟩ | ⟨decl, ⟨t, sp⟩⟩ <;> cases t <;>
      simp [Module.call, Module.add_declaration, Module.add_definition, Module.add_decl,
        Module.presented, Module.declarations, Module.template_declarations,
        Module.definitions, Module.template_definitions, Module.asserts]

/-- C18: one call appends its declaration to exactly one sequence, chosen by the
method and `flags.in_template`, and leaves the other three and the assertions as they
were; the value of `flags.in_specialization` plays no part; after a sequence of calls
each sequence is its initial content followed by the declarations presented to it, in
call order and with repetitions. -/
theorem add_decl_buckets (m : Module) (decl : NamedDecl) (flags : Module.Flags)
    (sp : Bool) (calls : List Module.Call) :
    m.add_declaration decl flags =
      (if flags.in_template then
        ⟨m.trace_, m.declarations_, m.definitions_, m.template_declarations_ ++ [decl],
          m.template_definitions_, m.asserts_⟩
      else
        ⟨m.trace_, m.declarations_ ++ [decl], m.definitions_, m.template_declarations_,
          m.template_definitions_, m.asserts_⟩) ∧
    m.add_definition decl flags =
      (if flags.in_template then
        ⟨m.trace_, m.declarations_, m.definitions_, m.template_declarations_,
          m.template_definitions_ ++ [decl], m.asserts_⟩
      else
        ⟨m.trace_, m.declarations_, m.definitions_ ++ [decl], m.template_declarations_,
          m.template_definitions_, m.asserts_⟩) ∧
    m.add_declaration decl ⟨flags.in_template, sp⟩ = m.add_declaration decl flags ∧
    m.add_definition decl ⟨flags.in_template, sp⟩ = m.add_definition decl flags ∧
    (m.run calls).declarations = m.declarations ++ Module.presented false false calls ∧
    (m.run calls).template_declarations =
      m.template_declarations ++ Module.presented false true calls ∧
    (m.run calls).definitions = m.definitions ++ Module.presented true false calls ∧
    (m.run calls).template_definitions =
      m.template_definitions ++ Module.presented true true calls ∧
    (m.run calls).asserts = m.asserts ∧
    ((m.add_declaration decl flags).add_declaration decl flags).declarations.length +
        ((m.add_declaration decl flags).add_declaration decl flags).template_declarations.length =
      m.declarations.length + m.template_declarations.length + 2 := by
  obtain ⟨t, s0⟩ := flags
  refine ⟨?_, ?_, ?_, ?_, (Module.run_buckets calls m).1, (Module.run_buckets calls m).2.1,
    (Module.run_buckets calls m).2.2.1, (Module.run_buckets calls m).2.2.2.1,
    (Module.run_buckets calls m).2.2.2.2, ?_⟩
  · cases t <;> simp [Module.add_declaration, Module.add_decl]
  · cases t <;> simp [Module.add_definition, Module.add_decl]
  · simp [Module.add_declaration, Module.add_decl]
  · simp [Module.add_definition, Module.add_decl]
  · cases t <;>
      simp [Module.add_declaration, Module.add_decl, Module.declarations,
        Module.template_declarations] <;> omega

/-! ## Totality and depth of the recursion -/

/-- The free function is its body applied to the visitor. -/
theorem printQualType_eq_step (qt : QualType) :
    printQualType qt = printQualTypeStep Visit qt := by
  funext print
  rcases qt with ⟨_ | p, c, v⟩ <;> simp only [printQualType, printQualTypeStep]

/-- The parameter loop is its body applied to the free function. -/
theorem printParamTypes_eq_step (params : List QualType) :
    printParamTypes params = printParamTypesStep printQualType params := by
  induction params with
  | nil =>
    funext print
    simp only [printParamTypes, printParamTypesStep]
  | cons i rest ih =>
    funext print
    simp only [printParamTypes, printParamTypesStep, ih]

/-- The body of the free function calls the visitor on the node referred to only. -/
theorem printQualTypeStep_congr {visit visit2 : ClangType → Formatter → Outcome}
    (qt : QualType)
    (h : ∀ p, qt.getTypePtrOrNull = some p → visit p = visit2 p) :
    printQualTypeStep visit qt = printQualTypeStep visit2 qt := by
  funext print
  rcases qt with ⟨_ | p, c, v⟩
  · simp only [printQualTypeStep]
  · simp only [printQualTypeStep, h p rfl]

/-- The parameter loop calls `pq` on the parameter types only. -/
theorem printParamTypesStep_congr {pq pq2 : QualType → Formatter → Outcome}
    (params : List QualType) (h : ∀ q ∈ params, pq q = pq2 q) :
    printParamTypesStep pq params = printParamTypesStep pq2 params := by
  induction params with
  | nil =>
    funext print
    simp only [printParamTypesStep]
  | cons i rest ih =>
    funext print
    simp only [printParamTypesStep, h i (List.mem_cons_self _ _),
      ih (fun q hq => h q (List.mem_cons_of_mem _ hq))]

theorem resolvedQual_of_mem {params : List QualType} {q : QualType}
    (hres : resolvedParams params = true) (h : q ∈ params) : resolvedQual q = true := by
  induction params with
  | nil => simp at h
  | cons i rest ih =>
    simp only [resolvedParams, Bool.and_eq_true] at hres
    rcases List.mem_cons.1 h with rfl | h
    · exact hres.1
    · exact ih hres.2 h

theorem nestingDepthQual_le_of_mem {params : List QualType} {q : QualType}
    (h : q ∈ params) : nestingDepthQual q ≤ nestingDepthParams params := by
  induction params with
  | nil => simp at h
  | cons i rest ih =>
    rw [nestingDepthParams]
    rcases List.mem_cons.1 h with rfl | h
    · exact le_max_left _ _
    · exact (ih h).trans (le_max_right _ _)

/-- The visitor is its handlers applied to the free function. -/
theorem Visit_eq_step (type : ClangType) : Visit type = VisitStep printQualType type := by
  funext print
  rcases type with ⟨cv, node⟩
  cases node with
  | FunctionProto cc r ps => simp only [Visit, VisitStep, printParamTypes_eq_step]
  | InjectedClassName decl q => cases decl <;> simp only [Visit, VisitStep]
  | TemplateTypeParm name => cases name <;> simp only [Visit, VisitStep]
  | DependentDecltype =>
    simp [Visit, VisitStep, printQualType, QualType.isLocalConstQualified,
      QualType.isLocalVolatileQualified, depthChecked]
  | DependentTypeOfExpr =>
    simp [Visit, VisitStep, printQualType, QualType.isLocalConstQualified,
      QualType.isLocalVolatileQualified, depthChecked]
  | _ => simp only [Visit, VisitStep]

/-- On a resolved node a handler calls `pq` only on component types of its node: two
functions that agree on every qualified type of nesting depth at most `n` give the same
result on a resolved node of nesting depth at most `n + 1`. -/
theorem VisitStep_congr {pq pq2 : QualType → Formatter → Outcome} {n : Nat}
    (h : ∀ q, resolvedQual q = true → nestingDepthQual q ≤ n → pq q = pq2 q)
    (type : ClangType) (hres : resolved type = true)
    (hd : nestingDepth type ≤ n + 1) : VisitStep pq type = VisitStep pq2 type := by
  funext print
  rcases type with ⟨cv, node⟩
  cases node with
  | FunctionProto cc r ps =>
    rw [nestingDepth] at hd
    simp only [resolved, Bool.and_eq_true] at hres
    have hr : nestingDepthQual r ≤ n := by
      have := le_max_left (nestingDepthQual r) (nestingDepthParams ps)
      omega
    have hps : nestingDepthParams ps ≤ n := by
      have := le_max_right (nestingDepthQual r) (nestingDepthParams ps)
      omega
    simp only [VisitStep, h r hres.1 hr,
      printParamTypesStep_congr ps
        (fun q hq => h q (resolvedQual_of_mem hres.2 hq)
          ((nestingDepthQual_le_of_mem hq).trans hps))]
  | InjectedClassName decl q =>
    rw [nestingDepth] at hd
    cases decl with
    | none => simp only [VisitStep, h q (by simpa only [resolved] using hres) (by omega)]
    | some d => simp only [VisitStep]
  | Builtin b => simp only [VisitStep]
  | TemplateTypeParm name => cases name <;> simp only [VisitStep]
  | Record decl fields => simp only [VisitStep]
  | Unhandled name => simp only [VisitStep]
  | DependentDecltype => simp [resolved] at hres
  | DependentTypeOfExpr => simp [resolved] at hres
  | Enum decl it q =>
    rw [nestingDepth] at hd
    simp only [VisitStep, h q (by simpa only [resolved] using hres) (by omega)]
  | Typedef decl q =>
    rw [nestingDepth] at hd
    simp only [VisitStep, h q (by simpa only [resolved] using hres) (by omega)]
  | ConstantArray q size =>
    rw [nestingDepth] at hd
    simp only [VisitStep, h q (by simpa only [resolved] using hres) (by omega)]
  | TemplateSpecialization sugared q =>
    rw [nestingDepth] at hd
    cases sugared with
    | false => simp only [VisitStep, Bool.false_eq_true, if_false]
    | true => simp only [VisitStep, h q (by simpa [resolved] using hres) (by omega)]
  | MemberPointer decl q =>
    rw [nestingDepth] at hd
    simp only [VisitStep, h q (by simpa only [resolved] using hres) (by omega)]
  | Attributed q =>
    rw [nestingDepth] at hd
    simp only [VisitStep, h q (by simpa only [resolved] using hres) (by omega)]
  | Deduced q =>
    rw [nestingDepth] at hd
    simp only [VisitStep, h q (by simpa only [resolved] using hres) (by omega)]
  | Paren q =>
    rw [nestingDepth] at hd
    simp only [VisitStep, h q (by simpa only [resolved] using hres) (by omega)]
  | LValueReference q =>
    rw [nestingDepth] at hd
    simp only [VisitStep, h q (by simpa only [resolved] using hres) (by omega)]
  | RValueReference q =>
    rw [nestingDepth] at hd
    simp only [VisitStep, h q (by simpa only [resolved] using hres) (by omega)]
  | Pointer q =>
    rw [nestingDepth] at hd
    simp only [VisitStep, h q (by simpa only [resolved] using hres) (by omega)]
  | Elaborated q =>
    rw [nestingDepth] at hd
    simp only [VisitStep, h q (by simpa only [resolved] using hres) (by omega)]
  | SubstTemplateTypeParm q =>
    rw [nestingDepth] at hd
    simp only [VisitStep, h q (by simpa only [resolved] using hres) (by omega)]
  | IncompleteArray q =>
    rw [nestingDepth] at hd
    simp only [VisitStep, h q (by simpa only [resolved] using hres) (by omega)]
  | Decayed q =>
    rw [nestingDepth] at hd
    simp only [VisitStep, h q (by simpa only [resolved] using hres) (by omega)]
  | Decltype q =>
    rw [nestingDepth] at hd
    simp only [VisitStep, h q (by simpa only [resolved] using hres) (by omega)]
  | TypeOfExpr q =>
    rw [nestingDepth] at hd
    simp only [VisitStep, h q (by simpa only [resolved] using hres) (by omega)]

theorem nestingDepth_pos (type : ClangType) : 0 < nestingDepth type := by
  rcases type with ⟨cv, node⟩
  cases node <;> simp [nestingDepth]

/-- On a type whose descent stays within resolved nodes, unfolding the handlers as many
levels as the nesting depth of the type gives the visitor, whatever stands in below the
last level. -/
theorem unfoldVisit_eq_Visit (base : ClangType → Formatter → Outcome) :
    ∀ (n : Nat) (type : ClangType), resolved type = true → nestingDepth type ≤ n →
      unfoldVisit base n type = Visit type
  | 0, type, _, h => absurd (nestingDepth_pos type) (by omega)
  | n + 1, type, hres, h => by
    rw [unfoldVisit, Visit_eq_step]
    refine VisitStep_congr (fun q hrq hq => ?_) type hres h
    rw [printQualType_eq_step]
    refine printQualTypeStep_congr q (fun p hp => ?_)
    rcases q with ⟨_ | p2, c, v⟩
    · simp [QualType.getTypePtrOrNull] at hp
    · simp only [QualType.getTypePtrOrNull, Option.some.injEq] at hp
      subst hp
      exact unfoldVisit_eq_Visit base n p2 (by simpa only [resolvedQual] using hrq)
        (by simpa only [nestingDepthQual] using hq)

/-- On a type whose descent stays within resolved nodes, `printType` has an outcome, a
normal return or the fatal outcome, and unfolding the handlers to the nesting depth of
the type already gives it, whatever is put in place of the visitor below that depth. -/
theorem lowering_total_of_resolved (type : ClangType) (print : Formatter)
    (base : ClangType → Formatter → Outcome) (n : Nat) (hres : resolved type = true)
    (hn : nestingDepth type ≤ n) :
    ((ClangPrinter.printType type print).isOk ||
      (ClangPrinter.printType type print).isFatal) = true ∧
    unfoldVisit base n type print = ClangPrinter.printType type print := by
  constructor
  · rw [(printType_outcome_of_resolved type print hres).1,
      (printType_outcome_of_resolved type print hres).2]
    cases reachesUnsupported type <;> rfl
  · rw [printType_eq_Visit, unfoldVisit_eq_Visit base n type hres hn]

/-- The type `int *`, of nesting depth 2, is printed by two levels of handlers, with a
stand-in below that fails every call. -/
theorem lowering_total_ptrToInt :
    nestingDepth ptrToInt ≤ 2 ∧
    unfoldVisit noVisit 2 ptrToInt Formatter.empty =
      ClangPrinter.printType ptrToInt Formatter.empty ∧
    ClangPrinter.printType ptrToInt Formatter.empty = .ok ⟨app "Tptr" intText, 0⟩ :=
  ⟨by decide,
    (lowering_total_of_resolved ptrToInt Formatter.empty noVisit 2 (by decide)
      (by decide)).2,
    by decide⟩

/-- However deep the handlers are unfolded on a decltype node that is not sugared, the
result is what the stand-in for the visitor gives on that same node. -/
theorem unfoldVisit_dependentDecltype (base : ClangType → Formatter → Outcome)
    (hbase : ∀ print, depthChecked (base dependentDecltype) print =
      base dependentDecltype print) :
    ∀ (n : Nat) (print : Formatter),
      unfoldVisit base n dependentDecltype print = base dependentDecltype print
  | 0, _ => rfl
  | n + 1, print => by
    have ih : unfoldVisit base n dependentDecltype = base dependentDecltype :=
      funext (unfoldVisit_dependentDecltype base hbase n)
    have hfun : depthChecked (base dependentDecltype) = base dependentDecltype :=
      funext hbase
    rw [unfoldVisit, dependentDecltype, VisitStep_dependentDecltype, ← dependentDecltype,
      ih, hfun, hbase]

/-- C19: the recursion is not well founded on a decltype node that is not sugared.  Its
handler calls the recursion on `QualType(this, 0)`, the node itself and not a strict
component; the node has nesting depth 1, yet however many levels the handlers are
unfolded the result is whatever the stand-in for the visitor gives (a return for a
stand-in that returns, an abort for one that aborts), so no depth produces a result; the
call of `printType` neither returns nor aborts. -/
theorem dependent_decltype_recursion_has_no_end (n : Nat) (print : Formatter)
    (pq : QualType → Formatter → Outcome) :
    VisitStep pq dependentDecltype print =
      depthChecked (pq (.mk (some dependentDecltype) false false)) print ∧
    nestingDepth dependentDecltype = 1 ∧
    unfoldVisit okVisit n dependentDecltype print = .ok print ∧
    unfoldVisit fatalVisit n dependentDecltype print = .fatal print ∧
    ClangPrinter.printType dependentDecltype print = .diverges print ∧
    (ClangPrinter.printType dependentDecltype print).isOk = false ∧
    (ClangPrinter.printType dependentDecltype print).isFatal = false := by
  refine ⟨rfl, rfl, ?_, ?_, ?_, ?_, ?_⟩
  · exact unfoldVisit_dependentDecltype okVisit (fun p => by simp [depthChecked, okVisit])
      n print
  · exact unfoldVisit_dependentDecltype fatalVisit
      (fun p => by simp [depthChecked, fatalVisit]) n print
  · rw [printType_eq_Visit]
    rfl
  · rw [printType_eq_Visit]
    rfl
  · rw [printType_eq_Visit]
    rfl

/-! ## Widths that the output does not tell apart -/

theorem bitsize_of_not_mem {n : Nat} (h : n ∉ [8, 16, 32, 64, 128]) :
    bitsize n = "unknown_bit_size" := by
  simp only [List.mem_cons, List.mem_singleton, List.not_mem_nil, or_false, not_or] at h
  obtain ⟨h8, h16, h32, h64, h128⟩ := h
  unfold bitsize
  split <;> first | rfl | contradiction

/-- What `VisitBuiltinType` prints for a character, floating or integer type other
than `bool`, in terms of the class predicates, the signedness and `bitsize`. -/
theorem VisitBuiltinType_of_class (type : BuiltinType) (print : Formatter)
    (hbool : type.kind ≠ .Bool)
    (hclass : (type.isAnyCharacterType || type.isFloatingPoint || type.isIntegerType) = true) :
    VisitBuiltinType type print =
      if type.isAnyCharacterType then
        .ok ⟨print.out ++ [.text "(Tchar ", .text (bitsize type.typeSize), .text " ",
          .text (if type.isSignedInteger then "Signed" else "Unsigned"), .text ")"],
          print.depth⟩
      else if type.isFloatingPoint then
        .ok ⟨print.out ++ [.text "(Tfloat ", .text (bitsize type.typeSize), .text ")"],
          print.depth⟩
      else
        .ok ⟨print.out ++ [.text "(Tint ", .text (bitsize type.typeSize), .text " ",
          .text (if type.isSignedInteger then "Signed" else "Unsigned"), .text ")"],
          print.depth⟩ := by
  obtain ⟨kind, size, name⟩ := type
  cases kind <;>
    simp_all [VisitBuiltinType, BuiltinType.isIntegerType, BuiltinType.isAnyCharacterType,
      BuiltinType.isFloatingPoint, BuiltinType.isSignedInteger,
      BuiltinType.isUnsignedInteger, Formatter.text]

/-- C20: `bitsize` is injective on 8, 16, 32, 64 and 128, and two character, floating
or integer builtin types (not `bool`) of the same class and signedness whose widths
are both outside that set print the same text: the width is not in the output. -/
theorem lower_builtin_forgets_width (cv1 cv2 : Bool) (b1 b2 : BuiltinType)
    (print : Formatter)
    (hchar : b1.isAnyCharacterType = b2.isAnyCharacterType)
    (hfloat : b1.isFloatingPoint = b2.isFloatingPoint)
    (hint : b1.isIntegerType = b2.isIntegerType)
    (hsign : b1.isSignedInteger = b2.isSignedInteger)
    (hbool1 : b1.kind ≠ .Bool) (hbool2 : b2.kind ≠ .Bool)
    (hclass : (b1.isAnyCharacterType || b1.isFloatingPoint || b1.isIntegerType) = true)
    (hw1 : b1.typeSize ∉ [8, 16, 32, 64, 128]) (hw2 : b2.typeSize ∉ [8, 16, 32, 64, 128]) :
    ClangPrinter.printType (.mk cv1 (.Builtin b1)) print =
      ClangPrinter.printType (.mk cv2 (.Builtin b2)) print ∧
    (ClangPrinter.printType (.mk cv1 (.Builtin b1)) print).isOk = true ∧
    lower (.mk cv1 (.Builtin b1)) = lower (.mk cv2 (.Builtin b2)) ∧
    (∀ m ∈ [8, 16, 32, 64, 128], ∀ n ∈ [8, 16, 32, 64, 128],
      bitsize m = bitsize n → m = n) := by
  have hclass2 : (b2.isAnyCharacterType || b2.isFloatingPoint || b2.isIntegerType) = true := by
    rw [← hchar, ← hfloat, ← hint]
    exact hclass
  have hv : ∀ f : Formatter, Visit (.mk cv1 (.Builtin b1)) f = Visit (.mk cv2 (.Builtin b2)) f := by
    intro f
    simp only [Visit]
    rw [VisitBuiltinType_of_class b1 f hbool1 hclass,
      VisitBuiltinType_of_class b2 f hbool2 hclass2, hchar, hfloat, hsign,
      bitsize_of_not_mem hw1, bitsize_of_not_mem hw2]
  refine ⟨?_, ?_, ?_, ?_⟩
  · rw [printType_eq_Visit, printType_eq_Visit, hv]
  · rw [printType_eq_Visit]
    simp only [Visit]
    rw [VisitBuiltinType_of_class b1 print hbool1 hclass]
    split_ifs <;> rfl
  · rw [lower_eq, lower_eq]
    exact emitted_congr hv
  · intro m hm n hn
    simp only [List.mem_cons, List.mem_singleton, List.not_mem_nil, or_false] at hm hn
    rcases hm with rfl | rfl | rfl | rfl | rfl <;>
      rcases hn with rfl | rfl | rfl | rfl | rfl <;> decide

/-- C20 at a 24-bit `int` and a 48-bit `long`: different widths, one text. -/
theorem lower_builtin_forgets_width_24_48 :
    int24.typeSize ≠ long48.typeSize ∧
    ClangPrinter.printType (.mk false (.Builtin int24)) Formatter.empty =
      ClangPrinter.printType (.mk false (.Builtin long48)) Formatter.empty ∧
    lower (.mk false (.Builtin int24)) =
      some [.text "(Tint ", .text "unknown_bit_size", .text " ", .text "Signed", .text ")"] :=
  ⟨by decide,
    (lower_builtin_forgets_width false false int24 long48 Formatter.empty (by decide)
      (by decide) (by decide) (by decide) (by decide) (by decide) (by decide) (by decide)
      (by decide)).1,
    by decide⟩

end BRiCk
